import Mathlib

/-!
Verification development for the INDI driver repository (iEQ Pro mount,
LX200 FS-2 mount, DeepSkyDad FP flat panel, and the shared guider
interface).  The drivers are shallowly embedded: each C++ member function
becomes a pure Lean function from the driver state and the responses of
the external serial device to the new state, the list of commands sent
over the transport, and the list of property publications.  The serial
transport and the device behind it are external collaborators, so device
responses enter as explicit oracle arguments.  C++ doubles are modelled
as rationals, C++ int fields as Int, and the INDI property validity
states as the IPState inductive.
-/

/-- Validity state of an INDI property (IPState in the framework). -/
inductive IPState
  | IPS_IDLE
  | IPS_OK
  | IPS_BUSY
  | IPS_ALERT
deriving DecidableEq, Repr

/-- GPS status values of the iEQ mount (iEQ::Base enum). -/
inductive GPSStatus
  | GPS_OFF
  | GPS_ON
  | GPS_DATA_OK
deriving DecidableEq, Repr

/-- System status values reported by the iEQ mount status query. -/
inductive SystemStatus
  | ST_STOPPED
  | ST_PARKED
  | ST_HOME
  | ST_SLEWING
  | ST_MERIDIAN_FLIPPING
  | ST_TRACKING_PEC_OFF
  | ST_TRACKING_PEC_ON
  | ST_GUIDING
deriving DecidableEq, Repr

/-- Track rate values of the iEQ mount. -/
inductive TrackRate
  | TR_SIDEREAL
  | TR_LUNAR
  | TR_SOLAR
  | TR_KING
  | TR_CUSTOM
deriving DecidableEq, Repr

/-- Time source values of the iEQ mount. -/
inductive TimeSource
  | TS_RS232
  | TS_CONTROLLER
  | TS_GPS
deriving DecidableEq, Repr

/-- Hemisphere values of the iEQ mount. -/
inductive Hemisphere
  | HEMI_SOUTH
  | HEMI_NORTH
deriving DecidableEq, Repr

/-- Motion directions of the iEQ low-level protocol. -/
inductive IEQDir
  | IEQ_N
  | IEQ_S
  | IEQ_E
  | IEQ_W
deriving DecidableEq, Repr

/-- Pier side values of the iEQ low-level protocol. -/
inductive IEQPierSide
  | IEQ_PIER_UNKNOWN
  | IEQ_PIER_UNCERTAIN
  | IEQ_PIER_EAST
  | IEQ_PIER_WEST
deriving DecidableEq, Repr

/-- Pier side values of the INDI telescope framework. -/
inductive TelescopePierSide
  | PIER_UNKNOWN
  | PIER_EAST
  | PIER_WEST
deriving DecidableEq, Repr

/-- Device Session State of a telescope driver (TrackState in the framework). -/
inductive TrackStateT
  | SCOPE_IDLE
  | SCOPE_SLEWING
  | SCOPE_TRACKING
  | SCOPE_PARKING
  | SCOPE_PARKED
deriving DecidableEq, Repr

/-- Motion command kind (TelescopeMotionCommand in the framework). -/
inductive MotionCmd
  | MOTION_START
  | MOTION_STOP
deriving DecidableEq, Repr

/-- North/South direction pair (INDI_DIR_NS). -/
inductive DirNS
  | DIRECTION_NORTH
  | DIRECTION_SOUTH
deriving DecidableEq, Repr

/-- West/East direction pair (INDI_DIR_WE). -/
inductive DirWE
  | DIRECTION_WEST
  | DIRECTION_EAST
deriving DecidableEq, Repr

/-- Firmware information block returned by the iEQ getFirmwareInfo query. -/
structure FirmwareInfo where
  Model : String
  MainBoardFirmware : String
  ControllerFirmware : String
  RAFirmware : String
  DEFirmware : String
deriving DecidableEq, Repr

/-- Status snapshot returned by the iEQ getStatus query (iEQ::Base::Info).
The slew rate member is kept as a plain index. -/
structure Info where
  gpsStatus : GPSStatus
  systemStatus : SystemStatus
  trackRate : TrackRate
  slewRate : Nat
  timeSource : TimeSource
  hemisphere : Hemisphere
  longitude : Rat
  latitude : Rat
deriving DecidableEq, Repr

/-- UTC date and time block returned by the iEQ getUTCDateTime query:
the UTC offset and the six date/time components. -/
structure UTCDateTime where
  utcOffset : Rat
  yy : Int
  mm : Int
  dd : Int
  hh : Int
  minute : Int
  ss : Int
deriving DecidableEq, Repr

/-- Commands the IEQPro driver sends over its transport (calls into
iEQ::Base, which encodes them as serial protocol commands). -/
inductive IEQCmd
  | setRA (v : Rat)
  | setDE (v : Rat)
  | slew
  | sync
  | getStatus
  | getCoords
  | setParkAz (v : Rat)
  | setParkAlt (v : Rat)
  | park
  | unpark
  | abortMotion
  | startMotion (d : IEQDir)
  | stopMotion (d : IEQDir)
  | startGuide (d : IEQDir) (ms : Nat)
  | setTrackEnabled (b : Bool)
  | setTrackMode (r : TrackRate)
  | setCustomRATrackRate (v : Rat)
  | setSlewRate (i : Nat)
  | initCommunication
  | isCommandSupported (s : String)
  | getPierSide
  | getFirmwareInfo
  | getGuideRate
  | getUTCDateTime
deriving DecidableEq, Repr

/-- Property publications performed directly by IEQPro::ReadScopeStatus
(IDSetSwitch and apply calls in the driver source). -/
inductive ScopePub
  | GPSStatusSP
  | TimeSourceSP
  | HemisphereSP
  | TrackModeSP
deriving DecidableEq, Repr

/-- State of one IEQPro driver instance: the Device Session State, the
capability flags probed at handshake, the park flag, the last status
snapshot, and the member values of the driver-owned properties. -/
structure IEQState where
  trackState : TrackStateT
  slewDirty : Bool
  canParkNatively : Bool
  canFindHome : Bool
  canGuideRate : Bool
  hasPierSide : Bool
  parked : Bool
  parkFlagSaved : Bool
  scopeInfo : Info
  targetRA : Rat
  targetDEC : Rat
  currentRA : Rat
  currentDEC : Rat
  parkAz : Rat
  parkAlt : Rat
  parkAzDefault : Rat
  parkAltDefault : Rat
  locationLat : Rat
  locationLong : Rat
  gpsOn : GPSStatus
  timeSourceOn : TimeSource
  hemisphereOn : Hemisphere
  trackModeState : IPState
  trackModeOn : TrackRate
  pierSideProp : TelescopePierSide
  trackRateRA : Rat
  trackRateDE : Rat
  guideRateRA : Rat
  guideRateDE : Rat
  eqState : IPState
  firmware : FirmwareInfo
  timeValue : Option UTCDateTime
deriving DecidableEq, Repr

/-- Sidereal tracking rate constant (arcsec per second), TRACKRATE_SIDEREAL. -/
def TRACKRATE_SIDEREAL : Rat := 15.041067178669930

namespace IEQPro

/-- Modelled from the spec: the framework call SetParked(b) records the new
park flag and persists it to durable configuration (the park data file).
The INDI::Telescope base class implementing it is not part of the sources. -/
def SetParked (st : IEQState) (b : Bool) : IEQState :=
  { st with parked := b, parkFlagSaved := true }

/-- Status polling loop of IEQPro::Goto: poll the device up to fuel times,
stopping early at the first successful poll that reports ST_SLEWING.
Returns the last value stored into newInfo (none when no poll ever
succeeded, matching the C++ local that is only written on success) and
the number of polls performed. -/
def gotoPollLoop (polls : Nat → Option SystemStatus) :
    Nat → Nat → Option SystemStatus → Option SystemStatus × Nat
  | _, 0, newInfo => (newInfo, 0)
  | i, fuel + 1, newInfo =>
    match polls i with
    | some s =>
      if s = SystemStatus.ST_SLEWING then (some s, 1)
      else
        let r := gotoPollLoop polls (i + 1) fuel (some s)
        (r.1, r.2 + 1)
    | none =>
      let r := gotoPollLoop polls (i + 1) fuel newInfo
      (r.1, r.2 + 1)

/-- IEQPro::Goto: set target RA/DEC on the device, command a slew, then
poll the status up to 5 times (the C++ sleeps 100 ms between polls)
waiting for the mount to report ST_SLEWING.  Oracle arguments give the
outcome of each device call. -/
def Goto (st : IEQState) (r d : Rat) (setRAok setDEok slewOk : Bool)
    (polls : Nat → Option SystemStatus) : Bool × IEQState × List IEQCmd :=
  let st := { st with targetRA := r, targetDEC := d }
  if setRAok = false then (false, st, [IEQCmd.setRA r])
  else if setDEok = false then (false, st, [IEQCmd.setRA r, IEQCmd.setDE d])
  else if slewOk = false then (false, st, [IEQCmd.setRA r, IEQCmd.setDE d, IEQCmd.slew])
  else
    let res := gotoPollLoop polls 0 5 none
    let trace := [IEQCmd.setRA r, IEQCmd.setDE d, IEQCmd.slew] ++
      List.replicate res.2 IEQCmd.getStatus
    if res.1 = some SystemStatus.ST_SLEWING then
      (true, { st with trackState := TrackStateT.SCOPE_SLEWING }, trace)
    else (false, st, trace)

/-- IEQPro::Sync: set RA/DEC on the device and issue the sync command; a
sync command failure is only logged, the call still succeeds. -/
def Sync (st : IEQState) (ra de : Rat) (setRAok setDEok syncOk : Bool) :
    Bool × IEQState × List IEQCmd :=
  if setRAok = false then (false, st, [IEQCmd.setRA ra])
  else if setDEok = false then (false, st, [IEQCmd.setRA ra, IEQCmd.setDE de])
  else
    (true,
     { st with eqState := IPState.IPS_OK, currentRA := ra, currentDEC := de },
     [IEQCmd.setRA ra, IEQCmd.setDE de, IEQCmd.sync])

/-- IEQPro::Abort: forward the abort to the device. -/
def Abort (st : IEQState) (devOk : Bool) : Bool × IEQState × List IEQCmd :=
  (devOk, st, [IEQCmd.abortMotion])

/-- IEQPro::MoveNS: rejected while parked; otherwise start or stop motion
on the N/S axis. -/
def MoveNS (st : IEQState) (dir : DirNS) (command : MotionCmd) (devOk : Bool) :
    Bool × IEQState × List IEQCmd :=
  if st.trackState = TrackStateT.SCOPE_PARKED then (false, st, [])
  else
    let d := match dir with
      | DirNS.DIRECTION_NORTH => IEQDir.IEQ_N
      | DirNS.DIRECTION_SOUTH => IEQDir.IEQ_S
    match command with
    | MotionCmd.MOTION_START => (devOk, st, [IEQCmd.startMotion d])
    | MotionCmd.MOTION_STOP => (devOk, st, [IEQCmd.stopMotion d])

/-- IEQPro::MoveWE: rejected while parked; otherwise start or stop motion
on the W/E axis. -/
def MoveWE (st : IEQState) (dir : DirWE) (command : MotionCmd) (devOk : Bool) :
    Bool × IEQState × List IEQCmd :=
  if st.trackState = TrackStateT.SCOPE_PARKED then (false, st, [])
  else
    let d := match dir with
      | DirWE.DIRECTION_WEST => IEQDir.IEQ_W
      | DirWE.DIRECTION_EAST => IEQDir.IEQ_E
    match command with
    | MotionCmd.MOTION_START => (devOk, st, [IEQCmd.startMotion d])
    | MotionCmd.MOTION_STOP => (devOk, st, [IEQCmd.stopMotion d])

/-- IEQPro::GuideNorth: forward a timed guide pulse to the device and map
the device result to OK or ALERT.  There is no session-state check. -/
def GuideNorth (st : IEQState) (ms : Nat) (devOk : Bool) :
    IPState × IEQState × List IEQCmd :=
  ((if devOk then IPState.IPS_OK else IPState.IPS_ALERT), st,
   [IEQCmd.startGuide IEQDir.IEQ_N ms])

/-- IEQPro::GuideSouth, same shape as GuideNorth. -/
def GuideSouth (st : IEQState) (ms : Nat) (devOk : Bool) :
    IPState × IEQState × List IEQCmd :=
  ((if devOk then IPState.IPS_OK else IPState.IPS_ALERT), st,
   [IEQCmd.startGuide IEQDir.IEQ_S ms])

/-- IEQPro::GuideEast, same shape as GuideNorth. -/
def GuideEast (st : IEQState) (ms : Nat) (devOk : Bool) :
    IPState × IEQState × List IEQCmd :=
  ((if devOk then IPState.IPS_OK else IPState.IPS_ALERT), st,
   [IEQCmd.startGuide IEQDir.IEQ_E ms])

/-- IEQPro::GuideWest, same shape as GuideNorth. -/
def GuideWest (st : IEQState) (ms : Nat) (devOk : Bool) :
    IPState × IEQState × List IEQCmd :=
  ((if devOk then IPState.IPS_OK else IPState.IPS_ALERT), st,
   [IEQCmd.startGuide IEQDir.IEQ_W ms])

/-- IEQPro::UnPark: when the mount can park natively the native unpark
command must succeed first; afterwards the park flag is cleared and the
session state becomes idle. -/
def UnPark (st : IEQState) (unparkOk : Bool) : Bool × IEQState × List IEQCmd :=
  if st.canParkNatively then
    if unparkOk = false then (false, st, [IEQCmd.unpark])
    else
      (true, { SetParked st false with trackState := TrackStateT.SCOPE_IDLE },
       [IEQCmd.unpark])
  else
    (true, { SetParked st false with trackState := TrackStateT.SCOPE_IDLE }, [])

/-- IEQPro::Park: with native park support, send the park Az/Alt and the
park command; otherwise convert the park Az/Alt to equatorial coordinates
(the libnova conversion at the current location and time enters as the
oracle function h2e) and fall back to a normal Goto. -/
def Park (st : IEQState) (h2e : Rat × Rat → Rat × Rat)
    (azOk altOk parkOk setRAok setDEok slewOk : Bool)
    (polls : Nat → Option SystemStatus) : Bool × IEQState × List IEQCmd :=
  let parkAz := st.parkAz
  let parkAlt := st.parkAlt
  if st.canParkNatively then
    if azOk = false then (false, st, [IEQCmd.setParkAz parkAz])
    else if altOk = false then
      (false, st, [IEQCmd.setParkAz parkAz, IEQCmd.setParkAlt parkAlt])
    else if parkOk = false then
      (false, st, [IEQCmd.setParkAz parkAz, IEQCmd.setParkAlt parkAlt, IEQCmd.park])
    else
      (true, { st with trackState := TrackStateT.SCOPE_PARKING },
       [IEQCmd.setParkAz parkAz, IEQCmd.setParkAlt parkAlt, IEQCmd.park])
  else
    let eq := h2e (parkAz, parkAlt)
    let g := Goto st eq.1 eq.2 setRAok setDEok slewOk polls
    if g.1 then
      (true, { g.2.1 with trackState := TrackStateT.SCOPE_PARKING, slewDirty := false },
       g.2.2)
    else (false, g.2.1, g.2.2)

/-- IEQPro::Handshake: initialize communications, then probe the three
optional commands and store the results in the capability flags. -/
def Handshake (st : IEQState) (initOk canPark canHome canRate : Bool) :
    Bool × IEQState × List IEQCmd :=
  if initOk = false then (false, st, [IEQCmd.initCommunication])
  else
    (true,
     { st with canParkNatively := canPark, canFindHome := canHome,
               canGuideRate := canRate },
     [IEQCmd.initCommunication, IEQCmd.isCommandSupported "MP1",
      IEQCmd.isCommandSupported "MSH", IEQCmd.isCommandSupported "RG"])

/-- Session-state transition switch of IEQPro::ReadScopeStatus on the
freshly polled system status; returns the updated state plus any extra
device commands issued (SetTrackEnabled during manual park completion). -/
def statusTransition (st : IEQState) (info : Info) : IEQState × List IEQCmd :=
  match info.systemStatus with
  | SystemStatus.ST_STOPPED =>
    let st := { st with trackModeState := IPState.IPS_IDLE }
    (if st.canParkNatively ∨ st.trackState ≠ TrackStateT.SCOPE_PARKED then
       { st with trackState := TrackStateT.SCOPE_IDLE }
     else st, [])
  | SystemStatus.ST_PARKED =>
    let st := { st with trackModeState := IPState.IPS_IDLE,
                        trackState := TrackStateT.SCOPE_PARKED }
    (if st.parked = false then SetParked st true else st, [])
  | SystemStatus.ST_HOME =>
    ({ st with trackModeState := IPState.IPS_IDLE,
               trackState := TrackStateT.SCOPE_IDLE }, [])
  | SystemStatus.ST_SLEWING =>
    let st := { st with slewDirty := true }
    (if st.trackState ≠ TrackStateT.SCOPE_SLEWING ∧
        st.trackState ≠ TrackStateT.SCOPE_PARKING then
       { st with trackState := TrackStateT.SCOPE_SLEWING }
     else st, [])
  | SystemStatus.ST_MERIDIAN_FLIPPING =>
    let st := { st with slewDirty := true }
    (if st.trackState ≠ TrackStateT.SCOPE_SLEWING ∧
        st.trackState ≠ TrackStateT.SCOPE_PARKING then
       { st with trackState := TrackStateT.SCOPE_SLEWING }
     else st, [])
  | SystemStatus.ST_TRACKING_PEC_OFF =>
    if st.trackState = TrackStateT.SCOPE_PARKING ∧ st.canParkNatively = false then
      if st.slewDirty then
        let st := { st with trackModeState := IPState.IPS_IDLE,
                            trackState := TrackStateT.SCOPE_PARKED }
        ({ SetParked st true with slewDirty := false },
         [IEQCmd.setTrackEnabled false])
      else (st, [])
    else
      ({ st with trackModeState := IPState.IPS_BUSY,
                 trackState := TrackStateT.SCOPE_TRACKING }, [])
  | SystemStatus.ST_TRACKING_PEC_ON =>
    if st.trackState = TrackStateT.SCOPE_PARKING ∧ st.canParkNatively = false then
      if st.slewDirty then
        let st := { st with trackModeState := IPState.IPS_IDLE,
                            trackState := TrackStateT.SCOPE_PARKED }
        ({ SetParked st true with slewDirty := false },
         [IEQCmd.setTrackEnabled false])
      else (st, [])
    else
      ({ st with trackModeState := IPState.IPS_BUSY,
                 trackState := TrackStateT.SCOPE_TRACKING }, [])
  | SystemStatus.ST_GUIDING =>
    if st.trackState = TrackStateT.SCOPE_PARKING ∧ st.canParkNatively = false then
      if st.slewDirty then
        let st := { st with trackModeState := IPState.IPS_IDLE,
                            trackState := TrackStateT.SCOPE_PARKED }
        ({ SetParked st true with slewDirty := false },
         [IEQCmd.setTrackEnabled false])
      else (st, [])
    else
      ({ st with trackModeState := IPState.IPS_BUSY,
                 trackState := TrackStateT.SCOPE_TRACKING }, [])

/-- Mapping from the protocol pier side to the framework pier side used
inside IEQPro::ReadScopeStatus. -/
def mapPier : IEQPierSide → TelescopePierSide
  | IEQPierSide.IEQ_PIER_UNKNOWN => TelescopePierSide.PIER_UNKNOWN
  | IEQPierSide.IEQ_PIER_UNCERTAIN => TelescopePierSide.PIER_UNKNOWN
  | IEQPierSide.IEQ_PIER_EAST => TelescopePierSide.PIER_EAST
  | IEQPierSide.IEQ_PIER_WEST => TelescopePierSide.PIER_WEST

/-- IEQPro::ReadScopeStatus: poll the device status; on success republish
the GPS, time source, hemisphere and track mode switch properties
unconditionally, run the session-state transition, then store the new
snapshot.  Afterwards read the pier side when supported, and finally read
the coordinates; the return value is the coordinate read result. -/
def ReadScopeStatus (st : IEQState) (newInfo : Option Info)
    (pier : Option IEQPierSide) (coords : Option (Rat × Rat)) :
    Bool × IEQState × List IEQCmd × List ScopePub :=
  let step1 : IEQState × List IEQCmd × List ScopePub :=
    match newInfo with
    | none => (st, [IEQCmd.getStatus], [])
    | some info =>
      let st := { st with gpsOn := info.gpsStatus, timeSourceOn := info.timeSource,
                          hemisphereOn := info.hemisphere }
      let t := statusTransition st info
      let st := { t.1 with trackModeOn := info.trackRate, scopeInfo := info }
      (st, IEQCmd.getStatus :: t.2,
       [ScopePub.GPSStatusSP, ScopePub.TimeSourceSP, ScopePub.HemisphereSP,
        ScopePub.TrackModeSP])
  let st := step1.1
  let step2 : IEQState × List IEQCmd :=
    if st.hasPierSide then
      match pier with
      | some ps => ({ st with pierSideProp := mapPier ps }, [IEQCmd.getPierSide])
      | none => (st, [IEQCmd.getPierSide])
    else (st, [])
  let st := step2.1
  match coords with
  | some c =>
    (true, { st with currentRA := c.1, currentDEC := c.2 },
     step1.2.1 ++ step2.2 ++ [IEQCmd.getCoords], step1.2.2)
  | none => (false, st, step1.2.1 ++ step2.2 ++ [IEQCmd.getCoords], step1.2.2)

/-- Responses consumed by IEQPro::getStartupData: firmware info, guide
rate, UTC date/time, status snapshot, the configuration fallback for the
location, the park-data load result, and the pier side probe. -/
structure StartupResponses where
  firmware : FirmwareInfo
  guideRate : Option (Rat × Rat)
  utcDateTime : Option UTCDateTime
  status : Option Info
  configLong : Option Rat
  configLat : Option Rat
  initParkOk : Bool
  pierSide : Option IEQPierSide
deriving Repr

/-- Whether the pier side probe of getStartupData succeeded with a value
other than IEQ_PIER_UNKNOWN. -/
def pierProbeValid (r : StartupResponses) : Bool :=
  match r.pierSide with
  | some ps => ps ≠ IEQPierSide.IEQ_PIER_UNKNOWN
  | none => false

/-- IEQPro::getStartupData: read firmware, guide rate, time and location
from the mount (falling back to the stored configuration for the
location), initialize the park data, and finally probe the pier side,
OR-ing TELESCOPE_HAS_PIER_SIDE into the capability mask when the probe
reports a usable pier side.  Property publications of this setup routine
are not tracked; the logging calls are dropped. -/
def getStartupData (st : IEQState) (r : StartupResponses) :
    IEQState × List IEQCmd :=
  let st := { st with firmware := r.firmware }
  let st :=
    match r.guideRate with
    | some g => { st with guideRateRA := g.1, guideRateDE := g.2 }
    | none => st
  let st :=
    match r.utcDateTime with
    | some t => { st with timeValue := some t }
    | none => st
  let st :=
    match r.status with
    | some info =>
      let lon := if info.longitude < 0 then info.longitude + 360 else info.longitude
      { st with scopeInfo := info, locationLat := info.latitude, locationLong := lon }
    | none =>
      match r.configLong, r.configLat with
      | some lon, some lat => { st with locationLat := lat, locationLong := lon }
      | _, _ => st
  let st :=
    if r.initParkOk then
      { st with parkAzDefault := (if st.locationLat ≥ 0 then 0 else 180),
                parkAltDefault := st.locationLat }
    else
      { st with parkAz := (if st.locationLat ≥ 0 then 0 else 180),
                parkAlt := st.locationLat,
                parkAzDefault := (if st.locationLat ≥ 0 then 0 else 180),
                parkAltDefault := st.locationLat }
  let st :=
    match r.pierSide with
    | some ps =>
      if ps ≠ IEQPierSide.IEQ_PIER_UNKNOWN then { st with hasPierSide := true }
      else st
    | none => st
  (st, [IEQCmd.getFirmwareInfo, IEQCmd.getGuideRate, IEQCmd.getUTCDateTime,
        IEQCmd.getStatus, IEQCmd.getPierSide])

/-- IEQPro::SetSlewRate: forward the slew rate index to the device. -/
def SetSlewRate (st : IEQState) (i : Nat) (devOk : Bool) :
    Bool × IEQState × List IEQCmd :=
  (devOk, st, [IEQCmd.setSlewRate i])

/-- IEQPro::SetTrackMode: forward the track rate to the device. -/
def SetTrackMode (st : IEQState) (r : TrackRate) (devOk : Bool) :
    Bool × IEQState × List IEQCmd :=
  (devOk, st, [IEQCmd.setTrackMode r])

/-- IEQPro::SetTrackRate: convert the requested RA rate to the offset from
sidereal accepted by the mount and send it; the custom DE rate is only
warned about. -/
def SetTrackRate (st : IEQState) (raRate deRate : Rat) (devOk : Bool) :
    Bool × IEQState × List IEQCmd :=
  (devOk, st, [IEQCmd.setCustomRATrackRate (raRate - TRACKRATE_SIDEREAL)])

/-- IEQPro::SetTrackEnabled: when enabling, first send the current track
mode (and the custom rate when the custom mode is selected), then toggle
tracking on the device. -/
def SetTrackEnabled (st : IEQState) (enabled : Bool) (devOk : Bool) :
    Bool × IEQState × List IEQCmd :=
  if enabled then
    (devOk, st,
     [IEQCmd.setTrackMode st.trackModeOn] ++
       (if st.trackModeOn = TrackRate.TR_CUSTOM then
          [IEQCmd.setCustomRATrackRate (st.trackRateRA - TRACKRATE_SIDEREAL)]
        else []) ++
       [IEQCmd.setTrackEnabled true])
  else (devOk, st, [IEQCmd.setTrackEnabled false])

/-- IEQPro::SetCurrentPark: store the current position, converted to
horizontal coordinates by the libnova oracle e2h, as the park position. -/
def SetCurrentPark (st : IEQState) (e2h : Rat × Rat → Rat × Rat) :
    Bool × IEQState × List IEQCmd :=
  let hz := e2h (st.currentRA, st.currentDEC)
  (true, { st with parkAz := hz.1, parkAlt := hz.2 }, [])

/-- IEQPro::SetDefaultPark: park azimuth 0, park altitude the latitude. -/
def SetDefaultPark (st : IEQState) : Bool × IEQState × List IEQCmd :=
  (true, { st with parkAz := 0, parkAlt := st.locationLat }, [])

/-- One post-handshake driver entry point together with the oracle data it
consumes, used to state that no operation modifies the capability flags. -/
inductive IEQOp
  | readScope (newInfo : Option Info) (pier : Option IEQPierSide)
      (coords : Option (Rat × Rat))
  | gotoOp (r d : Rat) (raOk deOk slewOk : Bool)
      (polls : Nat → Option SystemStatus)
  | syncOp (ra de : Rat) (raOk deOk syncOk : Bool)
  | abortOp (devOk : Bool)
  | parkOp (h2e : Rat × Rat → Rat × Rat)
      (azOk altOk parkOk raOk deOk slewOk : Bool)
      (polls : Nat → Option SystemStatus)
  | unparkOp (devOk : Bool)
  | moveNSOp (dir : DirNS) (c : MotionCmd) (devOk : Bool)
  | moveWEOp (dir : DirWE) (c : MotionCmd) (devOk : Bool)
  | guideOp (d : IEQDir) (ms : Nat) (devOk : Bool)
  | slewRateOp (i : Nat) (devOk : Bool)
  | trackModeOp (r : TrackRate) (devOk : Bool)
  | trackRateOp (ra de : Rat) (devOk : Bool)
  | trackEnabledOp (en : Bool) (devOk : Bool)
  | currentParkOp (e2h : Rat × Rat → Rat × Rat)
  | defaultParkOp

/-- Resulting driver state of one post-handshake entry point. -/
def applyOp (st : IEQState) : IEQOp → IEQState
  | IEQOp.readScope n p c => (ReadScopeStatus st n p c).2.1
  | IEQOp.gotoOp r d a b c polls => (Goto st r d a b c polls).2.1
  | IEQOp.syncOp ra de a b c => (Sync st ra de a b c).2.1
  | IEQOp.abortOp ok => (Abort st ok).2.1
  | IEQOp.parkOp h2e a b c x y z polls => (Park st h2e a b c x y z polls).2.1
  | IEQOp.unparkOp ok => (UnPark st ok).2.1
  | IEQOp.moveNSOp dir c ok => (MoveNS st dir c ok).2.1
  | IEQOp.moveWEOp dir c ok => (MoveWE st dir c ok).2.1
  | IEQOp.guideOp d ms ok =>
    (match d with
     | IEQDir.IEQ_N => (GuideNorth st ms ok).2.1
     | IEQDir.IEQ_S => (GuideSouth st ms ok).2.1
     | IEQDir.IEQ_E => (GuideEast st ms ok).2.1
     | IEQDir.IEQ_W => (GuideWest st ms ok).2.1)
  | IEQOp.slewRateOp i ok => (SetSlewRate st i ok).2.1
  | IEQOp.trackModeOp r ok => (SetTrackMode st r ok).2.1
  | IEQOp.trackRateOp ra de ok => (SetTrackRate st ra de ok).2.1
  | IEQOp.trackEnabledOp en ok => (SetTrackEnabled st en ok).2.1
  | IEQOp.currentParkOp e2h => (SetCurrentPark st e2h).2.1
  | IEQOp.defaultParkOp => (SetDefaultPark st).2.1

/-- Capability flags of a driver state as one tuple: native park, home
search, guide rate, pier side. -/
def capFlags (st : IEQState) : Bool × Bool × Bool × Bool :=
  (st.canParkNatively, st.canFindHome, st.canGuideRate, st.hasPierSide)

end IEQPro

/-- Publications performed by the DeepSkyDadFP driver handlers (IDSetText,
IDSetSwitch and apply calls in the driver source). -/
inductive DSDPub
  | parkCapSP
  | lightSP
  | statusTP
  | heaterModeSP
deriving DecidableEq, Repr

/-- State of one DeepSkyDadFP driver instance: the previously observed
raw status fields used for edge detection, and the member values of the
driver-owned properties.  ParkCapSP member 0 is PARK, member 1 is
UNPARK; LightSP member 0 is ON, member 1 is OFF; the heater mode members
are OFF, ON, ON2 in order. -/
structure DSDState where
  isFP2 : Bool
  prevCoverStatus : Int
  prevLightStatus : Int
  prevMotorStatus : Int
  prevHeaterConnected : Int
  prevHeaterMode : Int
  prevBrightness : Int
  statusCover : String
  statusLight : String
  statusMotor : String
  statusHeater : String
  parkCapState : IPState
  parkCapParked : Bool
  parkCapUnparked : Bool
  lightOnS : Bool
  lightOffS : Bool
  heaterState : IPState
  heater0 : Bool
  heater1 : Bool
  heater2 : Bool
  lightIntensity : Int
deriving DecidableEq, Repr

namespace DeepSkyDadFP

/-- Cover edge-detection block of DeepSkyDadFP::getStatus for the FP2
variant: while the motor is running only the status text is refreshed;
once stopped, a changed cover value is recorded, marks the status text
property dirty, and snaps ParkCapSP to the observed position when that
property was BUSY or IDLE.  Returns (state, statusUpdated, pubs). -/
def coverBlockFP2 (st : DSDState) (motorStatus coverStatus : Int) :
    DSDState × Bool × List DSDPub :=
  if coverStatus = st.prevCoverStatus then (st, false, [])
  else if motorStatus = 1 then
    (if coverStatus = 0 then { st with statusCover := "Closed" }
     else if coverStatus = 1 then { st with statusCover := "Open" }
     else { st with statusCover := "Not open/closed" }, false, [])
  else
    let st := { st with prevCoverStatus := coverStatus }
    if coverStatus = 1 then
      let st := { st with statusCover := "Open" }
      if st.parkCapState = IPState.IPS_BUSY ∨ st.parkCapState = IPState.IPS_IDLE then
        ({ st with parkCapParked := false, parkCapUnparked := true,
                   parkCapState := IPState.IPS_OK }, true, [DSDPub.parkCapSP])
      else (st, true, [])
    else if coverStatus = 0 then
      let st := { st with statusCover := "Closed" }
      if st.parkCapState = IPState.IPS_BUSY ∨ st.parkCapState = IPState.IPS_IDLE then
        ({ st with parkCapParked := true, parkCapUnparked := false,
                   parkCapState := IPState.IPS_OK }, true, [DSDPub.parkCapSP])
      else (st, true, [])
    else ({ st with statusCover := "Not open/closed" }, true, [])

/-- Cover edge-detection block of DeepSkyDadFP::getStatus for the
original FP (cover value 0 = open, 270 = closed). -/
def coverBlockFP1 (st : DSDState) (motorStatus coverStatus : Int) :
    DSDState × Bool × List DSDPub :=
  if coverStatus = st.prevCoverStatus then (st, false, [])
  else if motorStatus = 1 then
    (if coverStatus = 0 then { st with statusCover := "Open" }
     else if coverStatus = 270 then { st with statusCover := "Closed" }
     else { st with statusCover := "Not open/closed" }, false, [])
  else
    let st := { st with prevCoverStatus := coverStatus }
    if coverStatus = 0 then
      let st := { st with statusCover := "Open" }
      if st.parkCapState = IPState.IPS_BUSY ∨ st.parkCapState = IPState.IPS_IDLE then
        ({ st with parkCapParked := false, parkCapUnparked := true,
                   parkCapState := IPState.IPS_OK }, true, [DSDPub.parkCapSP])
      else (st, true, [])
    else if coverStatus = 270 then
      let st := { st with statusCover := "Closed" }
      if st.parkCapState = IPState.IPS_BUSY ∨ st.parkCapState = IPState.IPS_IDLE then
        ({ st with parkCapParked := true, parkCapUnparked := false,
                   parkCapState := IPState.IPS_OK }, true, [DSDPub.parkCapSP])
      else (st, true, [])
    else ({ st with statusCover := "Not open/closed" }, true, [])

/-- Cover block dispatch on the firmware variant flag. -/
def coverBlock (st : DSDState) (motorStatus coverStatus : Int) :
    DSDState × Bool × List DSDPub :=
  if st.isFP2 then coverBlockFP2 st motorStatus coverStatus
  else coverBlockFP1 st motorStatus coverStatus

/-- Light edge-detection block of DeepSkyDadFP::getStatus: a changed
light value is recorded, marks the status text dirty, and for the two
known values also mirrors the light switch property and publishes it. -/
def lightBlock (st : DSDState) (lightStatus : Int) :
    DSDState × Bool × List DSDPub :=
  if lightStatus = st.prevLightStatus then (st, false, [])
  else
    let st := { st with prevLightStatus := lightStatus }
    if lightStatus = 0 then
      ({ st with statusLight := "Off", lightOnS := false, lightOffS := true },
       true, [DSDPub.lightSP])
    else if lightStatus = 1 then
      ({ st with statusLight := "On", lightOnS := true, lightOffS := false },
       true, [DSDPub.lightSP])
    else (st, true, [])

/-- Motor edge-detection block of DeepSkyDadFP::getStatus: a changed
motor value is recorded and marks the status text dirty. -/
def motorBlock (st : DSDState) (motorStatus : Int) : DSDState × Bool :=
  if motorStatus = st.prevMotorStatus then (st, false)
  else
    let st := { st with prevMotorStatus := motorStatus }
    if motorStatus = 0 then ({ st with statusMotor := "Stopped" }, true)
    else if motorStatus = 1 then ({ st with statusMotor := "Running" }, true)
    else (st, true)

/-- Heater connection block of DeepSkyDadFP::getStatus: the temperature
is collapsed to a connected bit (above -40) and an edge updates the
status text and the heater mode validity, without publishing. -/
def heaterConnBlock (st : DSDState) (heaterTemperature : Int) : DSDState :=
  let heaterConnected : Int := if heaterTemperature > -40 then 1 else 0
  if heaterConnected = st.prevHeaterConnected then st
  else
    let st := { st with prevHeaterConnected := heaterConnected }
    if heaterConnected = 1 then
      { st with statusHeater := "Connected", heaterState := IPState.IPS_OK }
    else
      { st with heaterState := IPState.IPS_IDLE, statusHeater := "Disconnected" }

/-- Heater mode edge-detection block of DeepSkyDadFP::getStatus: a
changed mode is recorded, the switch members are reset and the member of
a known mode is turned on, and the property is published. -/
def heaterModeBlock (st : DSDState) (heaterMode : Int) : DSDState × List DSDPub :=
  if heaterMode = st.prevHeaterMode then (st, [])
  else
    let st := { st with prevHeaterMode := heaterMode,
                        heater0 := false, heater1 := false, heater2 := false }
    let st :=
      if heaterMode = 0 then { st with heater0 := true }
      else if heaterMode = 1 then { st with heater1 := true }
      else if heaterMode = 2 then { st with heater2 := true }
      else st
    (st, [DSDPub.heaterModeSP])

/-- Raw values parsed from the five status queries of
DeepSkyDadFP::getStatus (GMOV, GLON, GOPS/GPOS, GHTT, GHTM); none means
the corresponding serial exchange failed. -/
structure DSDStatusResponses where
  motor : Option Int
  light : Option Int
  cover : Option Int
  temp : Option Int
  mode : Option Int
deriving DecidableEq, Repr

/-- Core of DeepSkyDadFP::getStatus once all five raw values were read:
run the edge-detection blocks in source order, publish the status text
property when any block marked it dirty, then handle the heater fields. -/
def getStatusCore (st : DSDState) (motorStatus lightStatus coverStatus
    heaterTemperature heaterMode : Int) : DSDState × List DSDPub :=
  let c := coverBlock st motorStatus coverStatus
  let st := c.1
  let st := if motorStatus = 1 then { st with statusCover := "Moving" } else st
  let l := lightBlock st lightStatus
  let st := l.1
  let m := motorBlock st motorStatus
  let st := m.1
  let statusPubs := if c.2.1 ∨ l.2.1 ∨ m.2 then [DSDPub.statusTP] else []
  let st := heaterConnBlock st heaterTemperature
  let h := heaterModeBlock st heaterMode
  (h.1, c.2.2 ++ l.2.2 ++ statusPubs ++ h.2)

/-- DeepSkyDadFP::getStatus: read the five raw status values; any failed
exchange aborts the poll with no state change and no publication,
otherwise the edge-detection core runs. -/
def getStatus (st : DSDState) (r : DSDStatusResponses) :
    Bool × DSDState × List DSDPub :=
  match r.motor, r.light, r.cover, r.temp, r.mode with
  | some motorStatus, some lightStatus, some coverStatus,
    some heaterTemperature, some heaterMode =>
    let res := getStatusCore st motorStatus lightStatus coverStatus
      heaterTemperature heaterMode
    (true, res.1, res.2)
  | _, _, _, _, _ => (false, st, [])

/-- IUFindOnSwitchIndex on the heater mode property: index of the first
member that is on, none when all members are off (the C++ returns -1). -/
def findOnHeater (st : DSDState) : Option (Fin 3) :=
  if st.heater0 then some 0
  else if st.heater1 then some 1
  else if st.heater2 then some 2
  else none

/-- IUUpdateSwitch on the heater mode property: assign the requested
state to each member named in the client message (member names OFF, ON,
ON2 in order). -/
def updateHeaterSwitch (st : DSDState) (req : List (String × Bool)) : DSDState :=
  req.foldl (fun acc p =>
    if p.1 = "OFF" then { acc with heater0 := p.2 }
    else if p.1 = "ON" then { acc with heater1 := p.2 }
    else if p.1 = "ON2" then { acc with heater2 := p.2 }
    else acc) st

/-- Integer value of an on-switch index as the C++ IUFindOnSwitchIndex
returns it (-1 when no member is on). -/
def modeIndex : Option (Fin 3) → Int
  | some i => (i : Fin 3).val
  | none => -1

/-- Heater mode branch of DeepSkyDadFP::ISNewSwitch: when the requested
selection equals the current one the handler short-circuits to OK and
publishes without any serial traffic; otherwise it sends SHTM with the
target mode, rolling the switch back to the previous selection with an
ALERT on failure.  When no member was on, the C++ writes through index
-1 (out of bounds); that unreachable rollback is modelled as setting no
member. -/
def ISNewSwitchHeaterMode (st : DSDState) (req : List (String × Bool))
    (cmdOk : Bool) : Bool × DSDState × List String × List DSDPub :=
  let currentMode := findOnHeater st
  let st := updateHeaterSwitch st req
  let targetMode := findOnHeater st
  if modeIndex currentMode = modeIndex targetMode then
    (true, { st with heaterState := IPState.IPS_OK }, [], [DSDPub.heaterModeSP])
  else
    let cmd := "[SHTM" ++ toString (modeIndex targetMode) ++ "]"
    if cmdOk then
      (true, { st with heaterState := IPState.IPS_OK }, [cmd], [DSDPub.heaterModeSP])
    else
      let st := { st with heater0 := false, heater1 := false, heater2 := false }
      let st :=
        match currentMode with
        | some i =>
          if i = 0 then { st with heater0 := true }
          else if i = 1 then { st with heater1 := true }
          else { st with heater2 := true }
        | none => st
      (false, { st with heaterState := IPState.IPS_ALERT }, [cmd],
       [DSDPub.heaterModeSP])

/-- Heater member values of a DeepSkyDadFP state as one tuple. -/
def heaterVec (st : DSDState) : Bool × Bool × Bool :=
  (st.heater0, st.heater1, st.heater2)

/-- Switch vector with exactly the given member on. -/
def exactlyOn (i : Fin 3) : Bool × Bool × Bool :=
  (i = (0 : Fin 3), i = (1 : Fin 3), i = (2 : Fin 3))

end DeepSkyDadFP

/-- Publication of the LX200FS2 stop-after-park switch property. -/
inductive FS2Pub
  | stopAfterParkSP
deriving DecidableEq, Repr

/-- State of the LX200FS2 stop-after-park option switch: member 0 is
named ON, member 1 is named OFF (OFF is on by default). -/
structure FS2State where
  stopAfterParkON : Bool
  stopAfterParkOFF : Bool
  stopAfterParkState : IPState
deriving DecidableEq, Repr

namespace LX200FS2

/-- IUFindOnSwitchName over the client message: name of the first
requested member whose state is on. -/
def findOnSwitchName (req : List (String × Bool)) : Option String :=
  (req.find? (fun p => p.2)).map (fun p => p.1)

/-- Name of the currently-on member of the stop-after-park property
(IUFindOnSwitchIndex followed by the member name lookup). -/
def currentOnName (st : FS2State) : Option String :=
  if st.stopAfterParkON then some "ON"
  else if st.stopAfterParkOFF then some "OFF"
  else none

/-- IUUpdateSwitch on the stop-after-park property. -/
def updateStopAfterPark (st : FS2State) (req : List (String × Bool)) : FS2State :=
  req.foldl (fun acc p =>
    if p.1 = "ON" then { acc with stopAfterParkON := p.2 }
    else if p.1 = "OFF" then { acc with stopAfterParkOFF := p.2 }
    else acc) st

/-- Stop-after-park branch of LX200FS2::ISNewSwitch: when the requested
member is the one already on, the handler leaves the members alone, sets
the property to IDLE and publishes; otherwise it applies the update,
sets OK and publishes.  No device command is sent on either path.  The
C++ dereferences null when the request or the property has no on member;
those unreachable paths are modelled as a no-op. -/
def ISNewSwitchStopAfterPark (st : FS2State) (req : List (String × Bool)) :
    Bool × FS2State × List String × List FS2Pub :=
  match findOnSwitchName req, currentOnName st with
  | some actionName, some currentName =>
    if actionName = currentName then
      (true, { st with stopAfterParkState := IPState.IPS_IDLE }, [],
       [FS2Pub.stopAfterParkSP])
    else
      let st := updateStopAfterPark st req
      (true, { st with stopAfterParkState := IPState.IPS_OK }, [],
       [FS2Pub.stopAfterParkSP])
  | _, _ => (true, st, [], [])

end LX200FS2

/-- One timed guide pulse issued by the guider interface (the call into
the driver guide callback). -/
inductive GuidePulse
  | ns (d : DirNS) (ms : Rat)
  | we (d : DirWE) (ms : Rat)
deriving DecidableEq, Repr

/-- Publications of the two guider number properties. -/
inductive GuiderPub
  | guideNSNP
  | guideWENP
deriving DecidableEq, Repr

/-- Member values and validity of the two timed-guide number properties
owned by INDI::GuiderInterface. -/
structure GuiderState where
  guideN : Rat
  guideS : Rat
  guideW : Rat
  guideE : Rat
  nsState : IPState
  weState : IPState
deriving DecidableEq, Repr

namespace GuiderInterface

/-- PropertyNumber update on the N/S pair: assign each value in the
client message to the member it names. -/
def updateNS (st : GuiderState) (upd : List (String × Rat)) : GuiderState :=
  upd.foldl (fun acc p =>
    if p.1 = "TIMED_GUIDE_N" then { acc with guideN := p.2 }
    else if p.1 = "TIMED_GUIDE_S" then { acc with guideS := p.2 }
    else acc) st

/-- PropertyNumber update on the W/E pair. -/
def updateWE (st : GuiderState) (upd : List (String × Rat)) : GuiderState :=
  upd.foldl (fun acc p =>
    if p.1 = "TIMED_GUIDE_W" then { acc with guideW := p.2 }
    else if p.1 = "TIMED_GUIDE_E" then { acc with guideE := p.2 }
    else acc) st

/-- First value of the client message, the C++ values[0]; a client never
sends an empty message, so the fallback 0 is unreachable. -/
def firstValue (upd : List (String × Rat)) : Rat :=
  match upd.head? with
  | some p => p.2
  | none => 0

/-- GuiderInterface::ISNewNumber: on the N/S property, a nonzero North
member zeroes South and issues a North pulse — with values[0], the first
value of the client message, as the duration — otherwise a nonzero South
issues a South pulse; the property state becomes whatever the guide
callback returned and the property is published once.  The W/E property
is handled symmetrically.  Any other name is not handled. -/
def ISNewNumber (st : GuiderState) (propName : String)
    (upd : List (String × Rat)) (cbNS : DirNS → Rat → IPState)
    (cbWE : DirWE → Rat → IPState) :
    Bool × GuiderState × List GuidePulse × List GuiderPub :=
  if propName = "TELESCOPE_TIMED_GUIDE_NS" then
    let st := updateNS st upd
    if st.guideN ≠ 0 then
      let st := { st with guideS := 0 }
      let st := { st with nsState := cbNS DirNS.DIRECTION_NORTH (firstValue upd) }
      (true, st, [GuidePulse.ns DirNS.DIRECTION_NORTH (firstValue upd)],
       [GuiderPub.guideNSNP])
    else if st.guideS ≠ 0 then
      let st := { st with nsState := cbNS DirNS.DIRECTION_SOUTH (firstValue upd) }
      (true, st, [GuidePulse.ns DirNS.DIRECTION_SOUTH (firstValue upd)],
       [GuiderPub.guideNSNP])
    else (true, st, [], [GuiderPub.guideNSNP])
  else if propName = "TELESCOPE_TIMED_GUIDE_WE" then
    let st := updateWE st upd
    if st.guideW ≠ 0 then
      let st := { st with guideE := 0 }
      let st := { st with weState := cbWE DirWE.DIRECTION_WEST (firstValue upd) }
      (true, st, [GuidePulse.we DirWE.DIRECTION_WEST (firstValue upd)],
       [GuiderPub.guideWENP])
    else if st.guideE ≠ 0 then
      let st := { st with weState := cbWE DirWE.DIRECTION_EAST (firstValue upd) }
      (true, st, [GuidePulse.we DirWE.DIRECTION_EAST (firstValue upd)],
       [GuiderPub.guideWENP])
    else (true, st, [], [GuiderPub.guideWENP])
  else (false, st, [], [])

end GuiderInterface

/-- Status snapshot matching the constructor defaults of the IEQPro
driver (scopeInfo initialisation in the IEQPro constructor). -/
def info0 : Info :=
  { gpsStatus := GPSStatus.GPS_OFF, systemStatus := SystemStatus.ST_STOPPED,
    trackRate := TrackRate.TR_SIDEREAL, slewRate := 1,
    timeSource := TimeSource.TS_RS232, hemisphere := Hemisphere.HEMI_NORTH,
    longitude := 0, latitude := 0 }

/-- Status snapshot of a mount that is tracking. -/
def infoTracking : Info :=
  { info0 with systemStatus := SystemStatus.ST_TRACKING_PEC_OFF }

/-- IEQPro driver state right after initProperties: session state idle,
all capability flags still false, nothing parked. -/
def ieqInit : IEQState :=
  { trackState := TrackStateT.SCOPE_IDLE, slewDirty := false,
    canParkNatively := false, canFindHome := false, canGuideRate := false,
    hasPierSide := false, parked := false, parkFlagSaved := false,
    scopeInfo := info0, targetRA := 0, targetDEC := 0, currentRA := 0,
    currentDEC := 0, parkAz := 0, parkAlt := 0, parkAzDefault := 0,
    parkAltDefault := 0, locationLat := 0, locationLong := 0,
    gpsOn := GPSStatus.GPS_OFF, timeSourceOn := TimeSource.TS_RS232,
    hemisphereOn := Hemisphere.HEMI_NORTH, trackModeState := IPState.IPS_IDLE,
    trackModeOn := TrackRate.TR_SIDEREAL,
    pierSideProp := TelescopePierSide.PIER_UNKNOWN, trackRateRA := 0,
    trackRateDE := 0, guideRateRA := 0, guideRateDE := 0,
    eqState := IPState.IPS_IDLE,
    firmware := { Model := "", MainBoardFirmware := "", ControllerFirmware := "",
                  RAFirmware := "", DEFirmware := "" },
    timeValue := none }

/-- IEQPro driver state with the session state PARKED. -/
def ieqParked : IEQState := { ieqInit with trackState := TrackStateT.SCOPE_PARKED }

/-- IEQPro driver state with a slew in progress. -/
def ieqSlewing : IEQState := { ieqInit with trackState := TrackStateT.SCOPE_SLEWING }

/-- IEQPro driver state of a tracking mount that has already observed the
tracking status snapshot, so the next poll returns identical raw values. -/
def ieqTracking : IEQState :=
  { ieqInit with trackState := TrackStateT.SCOPE_TRACKING,
                 trackModeState := IPState.IPS_BUSY, scopeInfo := infoTracking }

/-- Tracking-family system statuses of the iEQ mount (the three cases the
ReadScopeStatus switch treats as a completed slew). -/
def isTrackingStatus (s : SystemStatus) : Prop :=
  s = SystemStatus.ST_TRACKING_PEC_OFF ∨ s = SystemStatus.ST_TRACKING_PEC_ON ∨
    s = SystemStatus.ST_GUIDING

/-- DeepSkyDadFP driver state (original FP variant) that has fully
observed a concrete raw snapshot: cover closed (270), light off, motor
stopped, heater connected, heater mode OFF. -/
def dsdSeen : DSDState :=
  { isFP2 := false, prevCoverStatus := 270, prevLightStatus := 0,
    prevMotorStatus := 0, prevHeaterConnected := 1, prevHeaterMode := 0,
    prevBrightness := 0, statusCover := "Closed", statusLight := "Off",
    statusMotor := "Stopped", statusHeater := "Connected",
    parkCapState := IPState.IPS_OK, parkCapParked := true,
    parkCapUnparked := false, lightOnS := false, lightOffS := true,
    heaterState := IPState.IPS_OK, heater0 := true, heater1 := false,
    heater2 := false, lightIntensity := 0 }

/-- Raw DeepSkyDadFP status responses equal to what dsdSeen has observed,
except that the light is now on. -/
def dsdLightChanged : DeepSkyDadFP.DSDStatusResponses :=
  { motor := some 0, light := some 1, cover := some 270, temp := some 20,
    mode := some 0 }

/-- Raw DeepSkyDadFP status responses equal to what dsdSeen has observed. -/
def dsdSame : DeepSkyDadFP.DSDStatusResponses :=
  { motor := some 0, light := some 0, cover := some 270, temp := some 20,
    mode := some 0 }

/-- LX200FS2 stop-after-park switch in its initial configuration: OFF is
the active member, the property is idle. -/
def fs2Init : FS2State :=
  { stopAfterParkON := false, stopAfterParkOFF := true,
    stopAfterParkState := IPState.IPS_IDLE }

/-- Guider interface state with both axis pairs at zero and idle. -/
def guiderInit : GuiderState :=
  { guideN := 0, guideS := 0, guideW := 0, guideE := 0,
    nsState := IPState.IPS_IDLE, weState := IPState.IPS_IDLE }

/-- Startup responses where every query succeeds and the mount reports
pier side east. -/
def startupWithPier : IEQPro.StartupResponses :=
  { firmware := { Model := "CEM60", MainBoardFirmware := "", ControllerFirmware := "",
                  RAFirmware := "", DEFirmware := "" },
    guideRate := some (1/2, 1/2), utcDateTime := none, status := some info0,
    configLong := none, configLat := none, initParkOk := true,
    pierSide := some IEQPierSide.IEQ_PIER_EAST }

/-- Startup responses of a second session on a mount whose pier side
probe fails. -/
def startupNoPier : IEQPro.StartupResponses :=
  { firmware := { Model := "iEQ45", MainBoardFirmware := "", ControllerFirmware := "",
                  RAFirmware := "", DEFirmware := "" },
    guideRate := none, utcDateTime := none, status := some info0,
    configLong := none, configLat := none, initParkOk := true,
    pierSide := none }

/-- Number of occurrences of a command in a transport trace. -/
def countCmd (c : IEQCmd) : List IEQCmd → Nat
  | [] => 0
  | x :: xs => (if x = c then 1 else 0) + countCmd c xs

/-- IEQPro driver state of a natively-parking mount that is parked. -/
def ieqNativeParked : IEQState :=
  { ieqInit with canParkNatively := true, trackState := TrackStateT.SCOPE_PARKED,
                 parked := true }

theorem countCmd_append (c : IEQCmd) (l1 l2 : List IEQCmd) :
    countCmd c (l1 ++ l2) = countCmd c l1 + countCmd c l2 := by
  induction l1 with
  | nil => simp [countCmd]
  | cons x xs ih => simp [countCmd, ih]; omega

theorem countCmd_replicate (c : IEQCmd) (n : Nat) :
    countCmd c (List.replicate n c) = n := by
  induction n with
  | zero => simp [countCmd]
  | succ k ih => simp [List.replicate_succ, countCmd, ih]; omega

theorem gotoPollLoop_snd_le (polls : Nat → Option SystemStatus) (fuel i : Nat)
    (acc : Option SystemStatus) :
    (IEQPro.gotoPollLoop polls i fuel acc).2 ≤ fuel := by
  induction fuel generalizing i acc with
  | zero => simp [IEQPro.gotoPollLoop]
  | succ f ih =>
    simp only [IEQPro.gotoPollLoop]
    cases hp : polls i with
    | none =>
      simpa using Nat.succ_le_succ (ih (i + 1) acc)
    | some s =>
      by_cases hs : s = SystemStatus.ST_SLEWING
      · simp [hs]
      · simpa [hs] using Nat.succ_le_succ (ih (i + 1) (some s))

theorem gotoPollLoop_slewing_iff (polls : Nat → Option SystemStatus) (fuel i : Nat)
    (acc : Option SystemStatus) (hacc : acc ≠ some SystemStatus.ST_SLEWING) :
    (IEQPro.gotoPollLoop polls i fuel acc).1 = some SystemStatus.ST_SLEWING ↔
      ∃ j, j < fuel ∧ polls (i + j) = some SystemStatus.ST_SLEWING := by
  induction fuel generalizing i acc with
  | zero =>
    simp only [IEQPro.gotoPollLoop]
    constructor
    · intro h; exact absurd h hacc
    · rintro ⟨j, hj, _⟩; omega
  | succ f ih =>
    simp only [IEQPro.gotoPollLoop]
    cases hp : polls i with
    | none =>
      change (IEQPro.gotoPollLoop polls (i + 1) f acc).1 =
        some SystemStatus.ST_SLEWING ↔ _
      rw [ih (i + 1) acc hacc]
      constructor
      · rintro ⟨j, hj, hpj⟩
        refine ⟨j + 1, by omega, ?_⟩
        have e : i + (j + 1) = i + 1 + j := by omega
        rw [e]; exact hpj
      · rintro ⟨j, hj, hpj⟩
        cases j with
        | zero =>
          rw [Nat.add_zero, hp] at hpj
          simp at hpj
        | succ k =>
          refine ⟨k, by omega, ?_⟩
          have e : i + 1 + k = i + (k + 1) := by omega
          rw [e]; exact hpj
    | some s =>
      change ((if s = SystemStatus.ST_SLEWING then (some s, 1)
        else ((IEQPro.gotoPollLoop polls (i + 1) f (some s)).1,
              (IEQPro.gotoPollLoop polls (i + 1) f (some s)).2 + 1)).1 =
          some SystemStatus.ST_SLEWING ↔
        ∃ j, j < f + 1 ∧ polls (i + j) = some SystemStatus.ST_SLEWING)
      by_cases hs : s = SystemStatus.ST_SLEWING
      · subst hs
        rw [if_pos rfl]
        constructor
        · intro _
          exact ⟨0, by omega, by rw [Nat.add_zero]; exact hp⟩
        · intro _; rfl
      · rw [if_neg hs]
        have hacc2 : some s ≠ some SystemStatus.ST_SLEWING := by
          simpa using hs
        change (IEQPro.gotoPollLoop polls (i + 1) f (some s)).1 =
          some SystemStatus.ST_SLEWING ↔ _
        rw [ih (i + 1) (some s) hacc2]
        constructor
        · rintro ⟨j, hj, hpj⟩
          refine ⟨j + 1, by omega, ?_⟩
          have e : i + (j + 1) = i + 1 + j := by omega
          rw [e]; exact hpj
        · rintro ⟨j, hj, hpj⟩
          cases j with
          | zero =>
            rw [Nat.add_zero, hp] at hpj
            injection hpj with h
            exact absurd h hs
          | succ k =>
            refine ⟨k, by omega, ?_⟩
            have e : i + 1 + k = i + (k + 1) := by omega
            rw [e]; exact hpj

theorem Goto_ok_cases (st : IEQState) (r d : Rat)
    (polls : Nat → Option SystemStatus) :
    (IEQPro.Goto st r d true true true polls =
       (true,
        { st with targetRA := r, targetDEC := d,
                  trackState := TrackStateT.SCOPE_SLEWING },
        [IEQCmd.setRA r, IEQCmd.setDE d, IEQCmd.slew] ++
          List.replicate (IEQPro.gotoPollLoop polls 0 5 none).2 IEQCmd.getStatus) ∧
       (IEQPro.gotoPollLoop polls 0 5 none).1 = some SystemStatus.ST_SLEWING) ∨
    (IEQPro.Goto st r d true true true polls =
       (false, { st with targetRA := r, targetDEC := d },
        [IEQCmd.setRA r, IEQCmd.setDE d, IEQCmd.slew] ++
          List.replicate (IEQPro.gotoPollLoop polls 0 5 none).2 IEQCmd.getStatus) ∧
       (IEQPro.gotoPollLoop polls 0 5 none).1 ≠ some SystemStatus.ST_SLEWING) := by
  by_cases h : (IEQPro.gotoPollLoop polls 0 5 none).1 = some SystemStatus.ST_SLEWING
  · left
    exact ⟨by simp [IEQPro.Goto, h], h⟩
  · right
    exact ⟨by simp [IEQPro.Goto, h], h⟩

theorem coverBlock_skip (st : DSDState) (m c : Int) (h : c = st.prevCoverStatus) :
    DeepSkyDadFP.coverBlock st m c = (st, false, []) := by
  simp [DeepSkyDadFP.coverBlock, DeepSkyDadFP.coverBlockFP1,
        DeepSkyDadFP.coverBlockFP2, h]

theorem coverBlock_silent_of_one (st : DSDState) (c : Int) :
    (DeepSkyDadFP.coverBlock st 1 c).2 = (false, []) := by
  unfold DeepSkyDadFP.coverBlock DeepSkyDadFP.coverBlockFP1 DeepSkyDadFP.coverBlockFP2
  dsimp only
  split_ifs <;> simp_all

theorem coverBlock_prevCover_of_one (st : DSDState) (c : Int) :
    (DeepSkyDadFP.coverBlock st 1 c).1.prevCoverStatus = st.prevCoverStatus := by
  unfold DeepSkyDadFP.coverBlock DeepSkyDadFP.coverBlockFP1 DeepSkyDadFP.coverBlockFP2
  dsimp only
  split_ifs <;> simp_all

theorem coverBlock_prevCover_of_ne (st : DSDState) (m c : Int) (hm : m ≠ 1) :
    (DeepSkyDadFP.coverBlock st m c).1.prevCoverStatus = c := by
  unfold DeepSkyDadFP.coverBlock DeepSkyDadFP.coverBlockFP1 DeepSkyDadFP.coverBlockFP2
  dsimp only
  split_ifs <;> simp_all

theorem coverBlock_prevLight (st : DSDState) (m c : Int) :
    (DeepSkyDadFP.coverBlock st m c).1.prevLightStatus = st.prevLightStatus := by
  unfold DeepSkyDadFP.coverBlock DeepSkyDadFP.coverBlockFP1 DeepSkyDadFP.coverBlockFP2
  dsimp only
  split_ifs <;> rfl

theorem coverBlock_prevMotor (st : DSDState) (m c : Int) :
    (DeepSkyDadFP.coverBlock st m c).1.prevMotorStatus = st.prevMotorStatus := by
  unfold DeepSkyDadFP.coverBlock DeepSkyDadFP.coverBlockFP1 DeepSkyDadFP.coverBlockFP2
  dsimp only
  split_ifs <;> rfl

theorem coverBlock_prevHC (st : DSDState) (m c : Int) :
    (DeepSkyDadFP.coverBlock st m c).1.prevHeaterConnected = st.prevHeaterConnected := by
  unfold DeepSkyDadFP.coverBlock DeepSkyDadFP.coverBlockFP1 DeepSkyDadFP.coverBlockFP2
  dsimp only
  split_ifs <;> rfl

theorem coverBlock_prevHM (st : DSDState) (m c : Int) :
    (DeepSkyDadFP.coverBlock st m c).1.prevHeaterMode = st.prevHeaterMode := by
  unfold DeepSkyDadFP.coverBlock DeepSkyDadFP.coverBlockFP1 DeepSkyDadFP.coverBlockFP2
  dsimp only
  split_ifs <;> rfl

theorem lightBlock_skip (st : DSDState) (l : Int) (h : l = st.prevLightStatus) :
    DeepSkyDadFP.lightBlock st l = (st, false, []) := by
  simp [DeepSkyDadFP.lightBlock, h]

theorem lightBlock_prevLight (st : DSDState) (l : Int) :
    (DeepSkyDadFP.lightBlock st l).1.prevLightStatus = l := by
  unfold DeepSkyDadFP.lightBlock
  dsimp only
  split_ifs <;> simp_all

theorem lightBlock_prevCover (st : DSDState) (l : Int) :
    (DeepSkyDadFP.lightBlock st l).1.prevCoverStatus = st.prevCoverStatus := by
  unfold DeepSkyDadFP.lightBlock
  dsimp only
  split_ifs <;> rfl

theorem lightBlock_prevMotor (st : DSDState) (l : Int) :
    (DeepSkyDadFP.lightBlock st l).1.prevMotorStatus = st.prevMotorStatus := by
  unfold DeepSkyDadFP.lightBlock
  dsimp only
  split_ifs <;> rfl

theorem lightBlock_prevHC (st : DSDState) (l : Int) :
    (DeepSkyDadFP.lightBlock st l).1.prevHeaterConnected = st.prevHeaterConnected := by
  unfold DeepSkyDadFP.lightBlock
  dsimp only
  split_ifs <;> rfl

theorem lightBlock_prevHM (st : DSDState) (l : Int) :
    (DeepSkyDadFP.lightBlock st l).1.prevHeaterMode = st.prevHeaterMode := by
  unfold DeepSkyDadFP.lightBlock
  dsimp only
  split_ifs <;> rfl

theorem lightBlock_fire0 (st : DSDState) (l : Int) (h : l ≠ st.prevLightStatus)
    (h0 : l = 0) :
    (DeepSkyDadFP.lightBlock st l).2 = (true, [DSDPub.lightSP]) := by
  unfold DeepSkyDadFP.lightBlock
  dsimp only
  split_ifs <;> simp_all

theorem lightBlock_fire1 (st : DSDState) (l : Int) (h : l ≠ st.prevLightStatus)
    (h1 : l = 1) :
    (DeepSkyDadFP.lightBlock st l).2 = (true, [DSDPub.lightSP]) := by
  unfold DeepSkyDadFP.lightBlock
  dsimp only
  split_ifs <;> simp_all

theorem motorBlock_skip (st : DSDState) (m : Int) (h : m = st.prevMotorStatus) :
    DeepSkyDadFP.motorBlock st m = (st, false) := by
  simp [DeepSkyDadFP.motorBlock, h]

theorem motorBlock_fire (st : DSDState) (m : Int) (h : m ≠ st.prevMotorStatus) :
    (DeepSkyDadFP.motorBlock st m).2 = true := by
  unfold DeepSkyDadFP.motorBlock
  dsimp only
  split_ifs <;> simp_all

theorem motorBlock_prevMotor (st : DSDState) (m : Int) :
    (DeepSkyDadFP.motorBlock st m).1.prevMotorStatus = m := by
  unfold DeepSkyDadFP.motorBlock
  dsimp only
  split_ifs <;> simp_all

theorem motorBlock_prevCover (st : DSDState) (m : Int) :
    (DeepSkyDadFP.motorBlock st m).1.prevCoverStatus = st.prevCoverStatus := by
  unfold DeepSkyDadFP.motorBlock
  dsimp only
  split_ifs <;> rfl

theorem motorBlock_prevLight (st : DSDState) (m : Int) :
    (DeepSkyDadFP.motorBlock st m).1.prevLightStatus = st.prevLightStatus := by
  unfold DeepSkyDadFP.motorBlock
  dsimp only
  split_ifs <;> rfl

theorem motorBlock_prevHC (st : DSDState) (m : Int) :
    (DeepSkyDadFP.motorBlock st m).1.prevHeaterConnected = st.prevHeaterConnected := by
  unfold DeepSkyDadFP.motorBlock
  dsimp only
  split_ifs <;> rfl

theorem motorBlock_prevHM (st : DSDState) (m : Int) :
    (DeepSkyDadFP.motorBlock st m).1.prevHeaterMode = st.prevHeaterMode := by
  unfold DeepSkyDadFP.motorBlock
  dsimp only
  split_ifs <;> rfl

theorem heaterConnBlock_skip (st : DSDState) (t : Int)
    (h : st.prevHeaterConnected = (if t > -40 then (1 : Int) else 0)) :
    DeepSkyDadFP.heaterConnBlock st t = st := by
  simp [DeepSkyDadFP.heaterConnBlock, h]

theorem heaterConnBlock_prevHC (st : DSDState) (t : Int) :
    (DeepSkyDadFP.heaterConnBlock st t).prevHeaterConnected =
      (if t > -40 then (1 : Int) else 0) := by
  unfold DeepSkyDadFP.heaterConnBlock
  dsimp only
  split_ifs <;> simp_all

theorem heaterConnBlock_prevCover (st : DSDState) (t : Int) :
    (DeepSkyDadFP.heaterConnBlock st t).prevCoverStatus = st.prevCoverStatus := by
  unfold DeepSkyDadFP.heaterConnBlock
  dsimp only
  split_ifs <;> rfl

theorem heaterConnBlock_prevLight (st : DSDState) (t : Int) :
    (DeepSkyDadFP.heaterConnBlock st t).prevLightStatus = st.prevLightStatus := by
  unfold DeepSkyDadFP.heaterConnBlock
  dsimp only
  split_ifs <;> rfl

theorem heaterConnBlock_prevMotor (st : DSDState) (t : Int) :
    (DeepSkyDadFP.heaterConnBlock st t).prevMotorStatus = st.prevMotorStatus := by
  unfold DeepSkyDadFP.heaterConnBlock
  dsimp only
  split_ifs <;> rfl

theorem heaterConnBlock_prevHM (st : DSDState) (t : Int) :
    (DeepSkyDadFP.heaterConnBlock st t).prevHeaterMode = st.prevHeaterMode := by
  unfold DeepSkyDadFP.heaterConnBlock
  dsimp only
  split_ifs <;> rfl

theorem heaterModeBlock_skip (st : DSDState) (md : Int) (h : md = st.prevHeaterMode) :
    DeepSkyDadFP.heaterModeBlock st md = (st, []) := by
  simp [DeepSkyDadFP.heaterModeBlock, h]

theorem heaterModeBlock_fire (st : DSDState) (md : Int) (h : md ≠ st.prevHeaterMode) :
    (DeepSkyDadFP.heaterModeBlock st md).2 = [DSDPub.heaterModeSP] := by
  unfold DeepSkyDadFP.heaterModeBlock
  dsimp only
  split_ifs <;> simp_all

theorem heaterModeBlock_prevHM (st : DSDState) (md : Int) :
    (DeepSkyDadFP.heaterModeBlock st md).1.prevHeaterMode = md := by
  unfold DeepSkyDadFP.heaterModeBlock
  dsimp only
  split_ifs <;> simp_all

theorem heaterModeBlock_prevCover (st : DSDState) (md : Int) :
    (DeepSkyDadFP.heaterModeBlock st md).1.prevCoverStatus = st.prevCoverStatus := by
  unfold DeepSkyDadFP.heaterModeBlock
  dsimp only
  split_ifs <;> rfl

theorem heaterModeBlock_prevLight (st : DSDState) (md : Int) :
    (DeepSkyDadFP.heaterModeBlock st md).1.prevLightStatus = st.prevLightStatus := by
  unfold DeepSkyDadFP.heaterModeBlock
  dsimp only
  split_ifs <;> rfl

theorem heaterModeBlock_prevMotor (st : DSDState) (md : Int) :
    (DeepSkyDadFP.heaterModeBlock st md).1.prevMotorStatus = st.prevMotorStatus := by
  unfold DeepSkyDadFP.heaterModeBlock
  dsimp only
  split_ifs <;> rfl

theorem heaterModeBlock_prevHC (st : DSDState) (md : Int) :
    (DeepSkyDadFP.heaterModeBlock st md).1.prevHeaterConnected =
      st.prevHeaterConnected := by
  unfold DeepSkyDadFP.heaterModeBlock
  dsimp only
  split_ifs <;> rfl

theorem getStatusCore_prevLight (st : DSDState) (m l c t md : Int) :
    (DeepSkyDadFP.getStatusCore st m l c t md).1.prevLightStatus = l := by
  unfold DeepSkyDadFP.getStatusCore
  dsimp only
  split_ifs <;>
    simp [heaterModeBlock_prevLight, heaterConnBlock_prevLight,
          motorBlock_prevLight, lightBlock_prevLight]

theorem getStatusCore_prevMotor (st : DSDState) (m l c t md : Int) :
    (DeepSkyDadFP.getStatusCore st m l c t md).1.prevMotorStatus = m := by
  unfold DeepSkyDadFP.getStatusCore
  dsimp only
  split_ifs <;>
    simp [heaterModeBlock_prevMotor, heaterConnBlock_prevMotor, motorBlock_prevMotor]

theorem getStatusCore_prevHC (st : DSDState) (m l c t md : Int) :
    (DeepSkyDadFP.getStatusCore st m l c t md).1.prevHeaterConnected =
      (if t > -40 then (1 : Int) else 0) := by
  unfold DeepSkyDadFP.getStatusCore
  dsimp only
  split_ifs <;> simp [heaterModeBlock_prevHC, heaterConnBlock_prevHC] <;> omega

theorem getStatusCore_prevHM (st : DSDState) (m l c t md : Int) :
    (DeepSkyDadFP.getStatusCore st m l c t md).1.prevHeaterMode = md := by
  unfold DeepSkyDadFP.getStatusCore
  dsimp only
  split_ifs <;> simp [heaterModeBlock_prevHM]

theorem getStatusCore_prevCover_of_ne (st : DSDState) (m l c t md : Int)
    (hm : m ≠ 1) :
    (DeepSkyDadFP.getStatusCore st m l c t md).1.prevCoverStatus = c := by
  unfold DeepSkyDadFP.getStatusCore
  dsimp only
  split_ifs with h
  · exact absurd h hm
  · simp [heaterModeBlock_prevCover, heaterConnBlock_prevCover, motorBlock_prevCover,
          lightBlock_prevCover, coverBlock_prevCover_of_ne st m c hm]

theorem getStatusCore_silent (st : DSDState) (m l c t md : Int)
    (hl : l = st.prevLightStatus) (hm : m = st.prevMotorStatus)
    (hhc : st.prevHeaterConnected = (if t > -40 then (1 : Int) else 0))
    (hmd : md = st.prevHeaterMode)
    (hcov : c = st.prevCoverStatus ∨ m = 1) :
    (DeepSkyDadFP.getStatusCore st m l c t md).2 = [] := by
  unfold DeepSkyDadFP.getStatusCore
  dsimp only
  rcases hcov with hcov | hm1
  · rw [coverBlock_skip st m c hcov]
    dsimp only
    by_cases hmov : m = 1
    · rw [if_pos hmov]
      rw [lightBlock_skip _ l (by simpa using hl)]
      rw [motorBlock_skip _ m (by simpa using hm)]
      rw [heaterConnBlock_skip _ t (by simpa using hhc)]
      rw [heaterModeBlock_skip _ md (by simpa using hmd)]
      simp
    · rw [if_neg hmov]
      rw [lightBlock_skip _ l (by simpa using hl)]
      rw [motorBlock_skip _ m (by simpa using hm)]
      rw [heaterConnBlock_skip _ t (by simpa using hhc)]
      rw [heaterModeBlock_skip _ md (by simpa using hmd)]
      simp
  · subst hm1
    rw [if_pos rfl]
    rw [lightBlock_skip _ l (by simpa [coverBlock_prevLight] using hl)]
    rw [motorBlock_skip _ 1 (by simpa [coverBlock_prevMotor] using hm)]
    rw [heaterConnBlock_skip _ t (by simpa [coverBlock_prevHC] using hhc)]
    rw [heaterModeBlock_skip _ md (by simpa [coverBlock_prevHM] using hmd)]
    simp [coverBlock_silent_of_one]

theorem statusTransition_canParkNatively (st : IEQState) (info : Info) :
    (IEQPro.statusTransition st info).1.canParkNatively = st.canParkNatively := by
  obtain ⟨g, ss, tr, sr, ts, hemi, lon, lat⟩ := info
  cases ss <;> simp only [IEQPro.statusTransition] <;> (try dsimp only) <;>
    split_ifs <;> simp [IEQPro.SetParked]

theorem statusTransition_canFindHome (st : IEQState) (info : Info) :
    (IEQPro.statusTransition st info).1.canFindHome = st.canFindHome := by
  obtain ⟨g, ss, tr, sr, ts, hemi, lon, lat⟩ := info
  cases ss <;> simp only [IEQPro.statusTransition] <;> (try dsimp only) <;>
    split_ifs <;> simp [IEQPro.SetParked]

theorem statusTransition_canGuideRate (st : IEQState) (info : Info) :
    (IEQPro.statusTransition st info).1.canGuideRate = st.canGuideRate := by
  obtain ⟨g, ss, tr, sr, ts, hemi, lon, lat⟩ := info
  cases ss <;> simp only [IEQPro.statusTransition] <;> (try dsimp only) <;>
    split_ifs <;> simp [IEQPro.SetParked]

theorem statusTransition_hasPierSide (st : IEQState) (info : Info) :
    (IEQPro.statusTransition st info).1.hasPierSide = st.hasPierSide := by
  obtain ⟨g, ss, tr, sr, ts, hemi, lon, lat⟩ := info
  cases ss <;> simp only [IEQPro.statusTransition] <;> (try dsimp only) <;>
    split_ifs <;> simp [IEQPro.SetParked]

theorem ReadScopeStatus_some_pubs (st : IEQState) (info : Info)
    (pier : Option IEQPierSide) (coords : Option (Rat × Rat)) :
    (IEQPro.ReadScopeStatus st (some info) pier coords).2.2.2 =
      [ScopePub.GPSStatusSP, ScopePub.TimeSourceSP, ScopePub.HemisphereSP,
       ScopePub.TrackModeSP] := by
  cases pier <;> cases coords <;>
    simp only [IEQPro.ReadScopeStatus] <;> (try dsimp only) <;> split_ifs <;> rfl

theorem ReadScopeStatus_some_core (st : IEQState) (info : Info)
    (pier : Option IEQPierSide) (coords : Option (Rat × Rat)) :
    (IEQPro.ReadScopeStatus st (some info) pier coords).2.1.trackState =
      (IEQPro.statusTransition
        { st with gpsOn := info.gpsStatus, timeSourceOn := info.timeSource,
                  hemisphereOn := info.hemisphere } info).1.trackState ∧
    (IEQPro.ReadScopeStatus st (some info) pier coords).2.1.slewDirty =
      (IEQPro.statusTransition
        { st with gpsOn := info.gpsStatus, timeSourceOn := info.timeSource,
                  hemisphereOn := info.hemisphere } info).1.slewDirty ∧
    (IEQPro.ReadScopeStatus st (some info) pier coords).2.1.parked =
      (IEQPro.statusTransition
        { st with gpsOn := info.gpsStatus, timeSourceOn := info.timeSource,
                  hemisphereOn := info.hemisphere } info).1.parked ∧
    (IEQPro.ReadScopeStatus st (some info) pier coords).2.1.parkFlagSaved =
      (IEQPro.statusTransition
        { st with gpsOn := info.gpsStatus, timeSourceOn := info.timeSource,
                  hemisphereOn := info.hemisphere } info).1.parkFlagSaved ∧
    (IEQPro.ReadScopeStatus st (some info) pier coords).2.1.canParkNatively =
      st.canParkNatively := by
  cases pier <;> cases coords <;>
    simp only [IEQPro.ReadScopeStatus] <;> (try dsimp only) <;> split_ifs <;>
      simp [statusTransition_canParkNatively]

theorem statusTransition_slewing_parking (st : IEQState) (info : Info)
    (hss : info.systemStatus = SystemStatus.ST_SLEWING)
    (ht : st.trackState = TrackStateT.SCOPE_PARKING) :
    (IEQPro.statusTransition st info).1 = { st with slewDirty := true } := by
  simp only [IEQPro.statusTransition, hss]
  split_ifs with hcon
  · exact absurd ht hcon.2
  · rfl

theorem statusTransition_parking_complete (st : IEQState) (info : Info)
    (hss : isTrackingStatus info.systemStatus)
    (ht : st.trackState = TrackStateT.SCOPE_PARKING)
    (hn : st.canParkNatively = false) (hd : st.slewDirty = true) :
    (IEQPro.statusTransition st info).1 =
      { st with trackModeState := IPState.IPS_IDLE,
                trackState := TrackStateT.SCOPE_PARKED, parked := true,
                parkFlagSaved := true, slewDirty := false } := by
  rcases hss with h | h | h <;>
    (simp only [IEQPro.statusTransition, h]
     rw [if_pos ⟨ht, hn⟩, if_pos hd]
     simp [IEQPro.SetParked])

theorem ReadScopeStatus_capFlags (st : IEQState) (n : Option Info)
    (pier : Option IEQPierSide) (coords : Option (Rat × Rat)) :
    IEQPro.capFlags (IEQPro.ReadScopeStatus st n pier coords).2.1 =
      IEQPro.capFlags st := by
  cases n <;> cases pier <;> cases coords <;>
    simp only [IEQPro.ReadScopeStatus] <;> (try dsimp only) <;>
      (try split_ifs) <;>
      simp [IEQPro.capFlags, statusTransition_canParkNatively,
            statusTransition_canFindHome, statusTransition_canGuideRate,
            statusTransition_hasPierSide]

theorem Goto_capFlags (st : IEQState) (r d : Rat) (a b c : Bool)
    (polls : Nat → Option SystemStatus) :
    IEQPro.capFlags (IEQPro.Goto st r d a b c polls).2.1 = IEQPro.capFlags st := by
  unfold IEQPro.Goto
  dsimp only
  split_ifs <;> rfl

theorem Park_capFlags (st : IEQState) (h2e : Rat × Rat → Rat × Rat)
    (azOk altOk parkOk raOk deOk slewOk : Bool)
    (polls : Nat → Option SystemStatus) :
    IEQPro.capFlags
      (IEQPro.Park st h2e azOk altOk parkOk raOk deOk slewOk polls).2.1 =
      IEQPro.capFlags st := by
  unfold IEQPro.Park
  dsimp only
  split_ifs <;>
    first
      | rfl
      | exact Goto_capFlags st _ _ raOk deOk slewOk polls

theorem Goto_snd_trackState (st : IEQState) (r d : Rat) (a b c : Bool)
    (polls : Nat → Option SystemStatus) :
    (IEQPro.Goto st r d a b c polls).2.1.trackState = st.trackState ∨
    ((IEQPro.Goto st r d a b c polls).1 = true ∧
     (IEQPro.Goto st r d a b c polls).2.1.trackState =
       TrackStateT.SCOPE_SLEWING) := by
  unfold IEQPro.Goto
  dsimp only
  split_ifs <;> first | exact Or.inl rfl | exact Or.inr ⟨rfl, rfl⟩

/-- C1 (amended): in the IEQPro driver the axis motion entry points
MoveNS and MoveWE issued while the Device Session State is PARKED are
rejected synchronously — they return false, send no device command over
the transport, and leave the driver state unchanged.  (The Goto entry
point of the same driver performs no such check, which refutes the claim
as originally stated; see the counterexample.) -/
theorem ieqpro_motion_rejected_while_parked (st : IEQState)
    (h : st.trackState = TrackStateT.SCOPE_PARKED) :
    (∀ dir command devOk,
       IEQPro.MoveNS st dir command devOk = (false, st, [])) ∧
    (∀ dir command devOk,
       IEQPro.MoveWE st dir command devOk = (false, st, [])) := by
  refine ⟨fun dir command devOk => ?_, fun dir command devOk => ?_⟩ <;>
    simp [IEQPro.MoveNS, IEQPro.MoveWE, h]

/-- Witness for C1: the rejection evaluated on a concrete parked state. -/
theorem ieqpro_motion_rejected_while_parked_witness :
    ieqParked.trackState = TrackStateT.SCOPE_PARKED ∧
    IEQPro.MoveNS ieqParked DirNS.DIRECTION_NORTH MotionCmd.MOTION_START true =
      (false, ieqParked, []) :=
  ⟨rfl, (ieqpro_motion_rejected_while_parked ieqParked rfl).1 _ _ _⟩

/-- Counterexample for C1 as stated: IEQPro::Goto issued while the
session state is PARKED is not rejected — the driver sends the RA/DEC
and slew commands over the transport and returns true. -/
theorem ieqpro_goto_while_parked_sends_commands :
    ieqParked.trackState = TrackStateT.SCOPE_PARKED ∧
    (IEQPro.Goto ieqParked 1 2 true true true
       (fun _ => some SystemStatus.ST_SLEWING)).1 = true ∧
    (IEQPro.Goto ieqParked 1 2 true true true
       (fun _ => some SystemStatus.ST_SLEWING)).2.2 ≠ [] := by
  refine ⟨rfl, by decide, by decide⟩

/-- C6 (confirmed): for an accepted Goto (the RA/DEC set commands and the
slew command succeed), the driver polls the device status at most 5
times; it returns true with the session state set to SLEWING exactly
when some poll within that window reports ST_SLEWING, and otherwise
returns false with the session state unchanged.  The 100 ms spacing of
the polls is wall-clock behaviour outside the embedding; the bounded
count of getStatus commands is what is verified. -/
theorem ieqpro_goto_bounded_polling (st : IEQState) (r d : Rat)
    (polls : Nat → Option SystemStatus) :
    countCmd IEQCmd.getStatus (IEQPro.Goto st r d true true true polls).2.2 ≤ 5 ∧
    ((IEQPro.Goto st r d true true true polls).1 = true ↔
      ∃ j, j < 5 ∧ polls j = some SystemStatus.ST_SLEWING) ∧
    ((IEQPro.Goto st r d true true true polls).1 = true →
      (IEQPro.Goto st r d true true true polls).2.1.trackState =
        TrackStateT.SCOPE_SLEWING) ∧
    ((IEQPro.Goto st r d true true true polls).1 = false →
      (IEQPro.Goto st r d true true true polls).2.1.trackState =
        st.trackState) := by
  have hiff := gotoPollLoop_slewing_iff polls 5 0 none (by simp)
  simp only [Nat.zero_add] at hiff
  have hle := gotoPollLoop_snd_le polls 5 0 none
  have hcount : countCmd IEQCmd.getStatus
      ([IEQCmd.setRA r, IEQCmd.setDE d, IEQCmd.slew] ++
        List.replicate (IEQPro.gotoPollLoop polls 0 5 none).2 IEQCmd.getStatus) =
      (IEQPro.gotoPollLoop polls 0 5 none).2 := by
    rw [countCmd_append, countCmd_replicate]
    simp [countCmd]
  rcases Goto_ok_cases st r d polls with ⟨heq, hs⟩ | ⟨heq, hs⟩ <;> rw [heq]
  · refine ⟨?_, ?_, ?_, ?_⟩
    · dsimp only
      rw [hcount]
      exact hle
    · constructor
      · intro _
        exact hiff.mp hs
      · intro _
        rfl
    · intro _
      rfl
    · intro hfalse
      simp at hfalse
  · refine ⟨?_, ?_, ?_, ?_⟩
    · dsimp only
      rw [hcount]
      exact hle
    · constructor
      · intro htrue
        simp at htrue
      · intro hex
        exact absurd (hiff.mpr hex) hs
    · intro htrue
      simp at htrue
    · intro _
      rfl

/-- Witness for C6: a device that reports slewing on the first poll. -/
theorem ieqpro_goto_bounded_polling_witness :
    (IEQPro.Goto ieqInit 1 2 true true true
       (fun _ => some SystemStatus.ST_SLEWING)).1 = true ∧
    (IEQPro.Goto ieqInit 1 2 true true true
       (fun _ => some SystemStatus.ST_SLEWING)).2.1.trackState =
      TrackStateT.SCOPE_SLEWING := by
  have h := ieqpro_goto_bounded_polling ieqInit 1 2
    (fun _ => some SystemStatus.ST_SLEWING)
  have htrue := h.2.1.mpr ⟨0, by omega, rfl⟩
  exact ⟨htrue, h.2.2.1 htrue⟩

/-- C7 (confirmed): with native park support, UnPark first issues the
native unpark command; on failure it returns false leaving the persisted
park flag and the session state untouched, and only on success does it
clear the park flag (persisting the change) and set the session state to
IDLE. -/
theorem ieqpro_unpark_native_guard (st : IEQState)
    (h : st.canParkNatively = true) (unparkOk : Bool) :
    IEQPro.UnPark st unparkOk =
      (if unparkOk then
         (true, { st with parked := false, parkFlagSaved := true,
                          trackState := TrackStateT.SCOPE_IDLE },
          [IEQCmd.unpark])
       else (false, st, [IEQCmd.unpark])) := by
  cases unparkOk <;> simp [IEQPro.UnPark, IEQPro.SetParked, h]

/-- Witness for C7: both outcomes of the native unpark on a concrete
parked state. -/
theorem ieqpro_unpark_native_guard_witness :
    ieqNativeParked.canParkNatively = true ∧
    IEQPro.UnPark ieqNativeParked false = (false, ieqNativeParked, [IEQCmd.unpark]) ∧
    (IEQPro.UnPark ieqNativeParked true).2.1.parked = false ∧
    (IEQPro.UnPark ieqNativeParked true).2.1.trackState =
      TrackStateT.SCOPE_IDLE := by
  have h1 := ieqpro_unpark_native_guard ieqNativeParked rfl false
  have h2 := ieqpro_unpark_native_guard ieqNativeParked rfl true
  refine ⟨rfl, by simpa using h1, by simp [h2], by simp [h2]⟩

/-- C8 (amended): the IEQPro guide entry points are not gated on the
session state: each one forwards the timed pulse to the device
unconditionally — including while a slew is in progress — and maps the
device result to OK or ALERT. -/
theorem ieqpro_guide_not_gated (st : IEQState) (ms : Nat) (devOk : Bool) :
    IEQPro.GuideNorth st ms devOk =
      ((if devOk then IPState.IPS_OK else IPState.IPS_ALERT), st,
       [IEQCmd.startGuide IEQDir.IEQ_N ms]) ∧
    IEQPro.GuideSouth st ms devOk =
      ((if devOk then IPState.IPS_OK else IPState.IPS_ALERT), st,
       [IEQCmd.startGuide IEQDir.IEQ_S ms]) ∧
    IEQPro.GuideEast st ms devOk =
      ((if devOk then IPState.IPS_OK else IPState.IPS_ALERT), st,
       [IEQCmd.startGuide IEQDir.IEQ_E ms]) ∧
    IEQPro.GuideWest st ms devOk =
      ((if devOk then IPState.IPS_OK else IPState.IPS_ALERT), st,
       [IEQCmd.startGuide IEQDir.IEQ_W ms]) :=
  ⟨rfl, rfl, rfl, rfl⟩

/-- Counterexample for C8 as stated: a guide pulse requested while the
session state is SLEWING results in a startGuide device command. -/
theorem ieqpro_guide_sent_while_slewing :
    ieqSlewing.trackState = TrackStateT.SCOPE_SLEWING ∧
    (IEQPro.GuideNorth ieqSlewing 500 true).2.2 =
      [IEQCmd.startGuide IEQDir.IEQ_N 500] ∧
    (IEQPro.GuideNorth ieqSlewing 500 true).2.2 ≠ [] := by
  refine ⟨rfl, rfl, by decide⟩

/-- C2 (confirmed): Park on a mount without native Az/Alt parking
converts the park Az/Alt into equatorial coordinates through the
coordinate-conversion oracle and issues a normal Goto to them — the
transport trace of Park is exactly the Goto trace at the converted
coordinates — and it returns true with the session state set to PARKING
(and the slew-dirty marker cleared) exactly when that Goto succeeds,
leaving the session state unchanged when it fails.  A later status poll
that observes the slew keeps the state PARKING, and the poll that then
observes tracking (arrival at the park position) moves the state to
PARKED, sets the park flag and persists it. -/
theorem ieqpro_park_fallback (st : IEQState) (h2e : Rat × Rat → Rat × Rat)
    (azOk altOk parkOk raOk deOk slewOk : Bool)
    (polls : Nat → Option SystemStatus)
    (hnat : st.canParkNatively = false) :
    ((IEQPro.Park st h2e azOk altOk parkOk raOk deOk slewOk polls).1 =
       (IEQPro.Goto st (h2e (st.parkAz, st.parkAlt)).1
         (h2e (st.parkAz, st.parkAlt)).2 raOk deOk slewOk polls).1) ∧
    ((IEQPro.Park st h2e azOk altOk parkOk raOk deOk slewOk polls).2.2 =
       (IEQPro.Goto st (h2e (st.parkAz, st.parkAlt)).1
         (h2e (st.parkAz, st.parkAlt)).2 raOk deOk slewOk polls).2.2) ∧
    ((IEQPro.Park st h2e azOk altOk parkOk raOk deOk slewOk polls).1 = true →
       (IEQPro.Park st h2e azOk altOk parkOk raOk deOk slewOk
          polls).2.1.trackState = TrackStateT.SCOPE_PARKING ∧
       (IEQPro.Park st h2e azOk altOk parkOk raOk deOk slewOk
          polls).2.1.slewDirty = false) ∧
    ((IEQPro.Park st h2e azOk altOk parkOk raOk deOk slewOk polls).1 = false →
       (IEQPro.Park st h2e azOk altOk parkOk raOk deOk slewOk
          polls).2.1.trackState = st.trackState) ∧
    (∀ (st2 : IEQState) (info1 info2 : Info) (pier : Option IEQPierSide)
       (coords : Option (Rat × Rat)),
       st2.trackState = TrackStateT.SCOPE_PARKING →
       st2.canParkNatively = false →
       info1.systemStatus = SystemStatus.ST_SLEWING →
       isTrackingStatus info2.systemStatus →
       (IEQPro.ReadScopeStatus st2 (some info1) pier coords).2.1.trackState =
         TrackStateT.SCOPE_PARKING ∧
       (IEQPro.ReadScopeStatus
          (IEQPro.ReadScopeStatus st2 (some info1) pier coords).2.1
          (some info2) pier coords).2.1.trackState = TrackStateT.SCOPE_PARKED ∧
       (IEQPro.ReadScopeStatus
          (IEQPro.ReadScopeStatus st2 (some info1) pier coords).2.1
          (some info2) pier coords).2.1.parked = true ∧
       (IEQPro.ReadScopeStatus
          (IEQPro.ReadScopeStatus st2 (some info1) pier coords).2.1
          (some info2) pier coords).2.1.parkFlagSaved = true) := by
  refine ⟨?_, ?_, ?_, ?_, ?_⟩
  · simp only [IEQPro.Park, hnat, Bool.false_eq_true, ite_false]
    (try dsimp only)
    split_ifs with hg
    · exact hg.symm
    · simp only [Bool.not_eq_true] at hg
      exact hg.symm
  · simp only [IEQPro.Park, hnat, Bool.false_eq_true, ite_false]
    (try dsimp only)
    split_ifs <;> rfl
  · simp only [IEQPro.Park, hnat, Bool.false_eq_true, ite_false]
    (try dsimp only)
    split_ifs with hg
    · intro _
      exact ⟨rfl, rfl⟩
    · intro hcon
      simp at hcon
  · simp only [IEQPro.Park, hnat, Bool.false_eq_true, ite_false]
    (try dsimp only)
    split_ifs with hg
    · intro hcon
      simp at hcon
    · intro _
      rcases Goto_snd_trackState st (h2e (st.parkAz, st.parkAlt)).1
        (h2e (st.parkAz, st.parkAlt)).2 raOk deOk slewOk polls with hts | ⟨htrue, _⟩
      · exact hts
      · exact absurd htrue hg
  · intro st2 info1 info2 pier coords ht2 hn2 hs1 hs2
    obtain ⟨hts1, hsd1, _, _, hcp1⟩ := ReadScopeStatus_some_core st2 info1 pier coords
    have htrans1 := statusTransition_slewing_parking
      { st2 with gpsOn := info1.gpsStatus, timeSourceOn := info1.timeSource,
                 hemisphereOn := info1.hemisphere } info1 hs1 ht2
    have h1ts : (IEQPro.ReadScopeStatus st2 (some info1) pier
        coords).2.1.trackState = TrackStateT.SCOPE_PARKING := by
      rw [hts1, htrans1]
      exact ht2
    have h1sd : (IEQPro.ReadScopeStatus st2 (some info1) pier
        coords).2.1.slewDirty = true := by
      rw [hsd1, htrans1]
    have h1cp : (IEQPro.ReadScopeStatus st2 (some info1) pier
        coords).2.1.canParkNatively = false := by
      rw [hcp1]
      exact hn2
    refine ⟨h1ts, ?_, ?_, ?_⟩ <;>
    · obtain ⟨hts2, hsd2, hpk2, hpf2, hcp2⟩ := ReadScopeStatus_some_core
        (IEQPro.ReadScopeStatus st2 (some info1) pier coords).2.1 info2 pier coords
      have htrans2 := statusTransition_parking_complete
        { (IEQPro.ReadScopeStatus st2 (some info1) pier coords).2.1 with
          gpsOn := info2.gpsStatus, timeSourceOn := info2.timeSource,
          hemisphereOn := info2.hemisphere } info2 hs2 h1ts h1cp h1sd
      first
        | (rw [hts2, htrans2])
        | (rw [hpk2, htrans2])
        | (rw [hpf2, htrans2])

/-- Witness for C2: a concrete non-native park whose Goto succeeds on the
first status poll. -/
theorem ieqpro_park_fallback_witness :
    ieqInit.canParkNatively = false ∧
    (IEQPro.Park ieqInit (fun p => (p.2 + 3, p.1 + 4)) true true true true true
       true (fun _ => some SystemStatus.ST_SLEWING)).1 = true ∧
    (IEQPro.Park ieqInit (fun p => (p.2 + 3, p.1 + 4)) true true true true true
       true (fun _ => some SystemStatus.ST_SLEWING)).2.1.trackState =
      TrackStateT.SCOPE_PARKING := by
  have h := ieqpro_park_fallback ieqInit (fun p => (p.2 + 3, p.1 + 4)) true true
    true true true true (fun _ => some SystemStatus.ST_SLEWING) rfl
  have htrue : (IEQPro.Park ieqInit (fun p => (p.2 + 3, p.1 + 4)) true true true
      true true true (fun _ => some SystemStatus.ST_SLEWING)).1 = true := by
    rw [h.1]
    decide
  exact ⟨rfl, htrue, (h.2.2.1 htrue).1⟩

/-- C3 (amended): edge detection on poll.  For the DeepSkyDadFP poll
handler: a second consecutive poll returning the same raw values as the
first produces zero publications; with all other fields unchanged, a
motor change publishes exactly the aggregate status text property and a
heater-mode change exactly the heater-mode switch property; a light
change to an observed on/off value produces two publications (the light
switch property and the aggregate status text); a heater-temperature
change alone produces none.  The IEQPro poll handler, in contrast,
republishes its four status switch properties on every successful poll,
whether or not anything changed. -/
theorem edge_detection_policy :
    (∀ (st : DSDState) (r : DeepSkyDadFP.DSDStatusResponses),
       (DeepSkyDadFP.getStatus (DeepSkyDadFP.getStatus st r).2.1 r).2.2 = []) ∧
    (∀ (st : DSDState) (m l c t md : Int), l = st.prevLightStatus →
       c = st.prevCoverStatus →
       st.prevHeaterConnected = (if t > -40 then (1 : Int) else 0) →
       md = st.prevHeaterMode → m ≠ st.prevMotorStatus →
       (DeepSkyDadFP.getStatus st
          ⟨some m, some l, some c, some t, some md⟩).2.2 = [DSDPub.statusTP]) ∧
    (∀ (st : DSDState) (m l c t md : Int), l = st.prevLightStatus →
       c = st.prevCoverStatus → m = st.prevMotorStatus →
       st.prevHeaterConnected = (if t > -40 then (1 : Int) else 0) →
       md ≠ st.prevHeaterMode →
       (DeepSkyDadFP.getStatus st
          ⟨some m, some l, some c, some t, some md⟩).2.2 =
         [DSDPub.heaterModeSP]) ∧
    (∀ (st : DSDState) (m l c t md : Int), c = st.prevCoverStatus →
       m = st.prevMotorStatus →
       st.prevHeaterConnected = (if t > -40 then (1 : Int) else 0) →
       md = st.prevHeaterMode → l ≠ st.prevLightStatus → (l = 0 ∨ l = 1) →
       (DeepSkyDadFP.getStatus st
          ⟨some m, some l, some c, some t, some md⟩).2.2 =
         [DSDPub.lightSP, DSDPub.statusTP]) ∧
    (∀ (st : DSDState) (m l c t md : Int), l = st.prevLightStatus →
       c = st.prevCoverStatus → m = st.prevMotorStatus →
       md = st.prevHeaterMode →
       (DeepSkyDadFP.getStatus st
          ⟨some m, some l, some c, some t, some md⟩).2.2 = []) ∧
    (∀ (st : IEQState) (info : Info) (pier : Option IEQPierSide)
       (coords : Option (Rat × Rat)),
       (IEQPro.ReadScopeStatus st (some info) pier coords).2.2.2 =
         [ScopePub.GPSStatusSP, ScopePub.TimeSourceSP, ScopePub.HemisphereSP,
          ScopePub.TrackModeSP]) := by
  refine ⟨?_, ?_, ?_, ?_, ?_, ?_⟩
  · intro st r
    obtain ⟨mo, lo, co, tp, mdo⟩ := r
    cases mo <;> cases lo <;> cases co <;> cases tp <;> cases mdo <;>
      first
        | rfl
        | (rename_i m l c t md
           show (DeepSkyDadFP.getStatusCore
               (DeepSkyDadFP.getStatusCore st m l c t md).1 m l c t md).2 = []
           exact getStatusCore_silent _ m l c t md
             (getStatusCore_prevLight st m l c t md).symm
             (getStatusCore_prevMotor st m l c t md).symm
             (getStatusCore_prevHC st m l c t md)
             (getStatusCore_prevHM st m l c t md).symm
             (by
               by_cases hm : m = 1
               · exact Or.inr hm
               · exact Or.inl (getStatusCore_prevCover_of_ne st m l c t md hm).symm))
  · intro st m l c t md hl hc hhc hmd hm
    show (DeepSkyDadFP.getStatusCore st m l c t md).2 = [DSDPub.statusTP]
    unfold DeepSkyDadFP.getStatusCore
    dsimp only
    rw [coverBlock_skip st m c hc]
    dsimp only
    by_cases hmov : m = 1
    · rw [if_pos hmov]
      rw [lightBlock_skip _ l (by simpa using hl)]
      rw [heaterConnBlock_skip _ t (by simpa [motorBlock_prevHC] using hhc)]
      rw [heaterModeBlock_skip _ md (by simpa [motorBlock_prevHM] using hmd)]
      simp [motorBlock_fire, hm]
    · rw [if_neg hmov]
      rw [lightBlock_skip _ l (by simpa using hl)]
      rw [heaterConnBlock_skip _ t (by simpa [motorBlock_prevHC] using hhc)]
      rw [heaterModeBlock_skip _ md (by simpa [motorBlock_prevHM] using hmd)]
      simp [motorBlock_fire, hm]
  · intro st m l c t md hl hc hm hhc hmd
    show (DeepSkyDadFP.getStatusCore st m l c t md).2 = [DSDPub.heaterModeSP]
    unfold DeepSkyDadFP.getStatusCore
    dsimp only
    rw [coverBlock_skip st m c hc]
    dsimp only
    by_cases hmov : m = 1
    · rw [if_pos hmov]
      rw [lightBlock_skip _ l (by simpa using hl)]
      rw [motorBlock_skip _ m (by simpa using hm)]
      rw [heaterConnBlock_skip _ t (by simpa using hhc)]
      simp [heaterModeBlock_fire, hmd]
    · rw [if_neg hmov]
      rw [lightBlock_skip _ l (by simpa using hl)]
      rw [motorBlock_skip _ m (by simpa using hm)]
      rw [heaterConnBlock_skip _ t (by simpa using hhc)]
      simp [heaterModeBlock_fire, hmd]
  · intro st m l c t md hc hm hhc hmd hl h01
    show (DeepSkyDadFP.getStatusCore st m l c t md).2 =
      [DSDPub.lightSP, DSDPub.statusTP]
    unfold DeepSkyDadFP.getStatusCore
    dsimp only
    rw [coverBlock_skip st m c hc]
    dsimp only
    by_cases hmov : m = 1
    · rw [if_pos hmov]
      rw [motorBlock_skip _ m (by simpa [lightBlock_prevMotor] using hm)]
      rw [heaterConnBlock_skip _ t (by simpa [lightBlock_prevHC] using hhc)]
      rw [heaterModeBlock_skip _ md (by simpa [lightBlock_prevHM] using hmd)]
      rcases h01 with h0 | h1
      · subst h0
        simp [lightBlock_fire0, hl]
      · subst h1
        simp [lightBlock_fire1, hl]
    · rw [if_neg hmov]
      rw [motorBlock_skip _ m (by simpa [lightBlock_prevMotor] using hm)]
      rw [heaterConnBlock_skip _ t (by simpa [lightBlock_prevHC] using hhc)]
      rw [heaterModeBlock_skip _ md (by simpa [lightBlock_prevHM] using hmd)]
      rcases h01 with h0 | h1
      · subst h0
        simp [lightBlock_fire0, hl]
      · subst h1
        simp [lightBlock_fire1, hl]
  · intro st m l c t md hl hc hm hmd
    show (DeepSkyDadFP.getStatusCore st m l c t md).2 = []
    unfold DeepSkyDadFP.getStatusCore
    dsimp only
    rw [coverBlock_skip st m c hc]
    dsimp only
    by_cases hmov : m = 1
    · rw [if_pos hmov]
      rw [lightBlock_skip _ l (by simpa using hl)]
      rw [motorBlock_skip _ m (by simpa using hm)]
      rw [heaterModeBlock_skip _ md (by simpa [heaterConnBlock_prevHM] using hmd)]
      simp
    · rw [if_neg hmov]
      rw [lightBlock_skip _ l (by simpa using hl)]
      rw [motorBlock_skip _ m (by simpa using hm)]
      rw [heaterModeBlock_skip _ md (by simpa [heaterConnBlock_prevHM] using hmd)]
      simp
  · intro st info pier coords
    exact ReadScopeStatus_some_pubs st info pier coords

/-- Witness for C3: a motor-only change on a concretely observed
DeepSkyDadFP state publishes exactly the status text property. -/
theorem edge_detection_policy_witness :
    (DeepSkyDadFP.getStatus dsdSeen
       ⟨some 1, some 0, some 270, some 20, some 0⟩).2.2 = [DSDPub.statusTP] :=
  edge_detection_policy.2.1 dsdSeen 1 0 270 20 0 rfl rfl (by decide) rfl
    (by decide)

/-- Counterexample for C3 as stated: a light-only change on the
DeepSkyDadFP produces two publications, not exactly one; and two
consecutive IEQPro polls with identical raw values still produce
publications, not zero. -/
theorem edge_detection_counterexample :
    ((DeepSkyDadFP.getStatus dsdSeen dsdLightChanged).2.2).length ≠ 1 ∧
    (DeepSkyDadFP.getStatus dsdSeen dsdLightChanged).2.2 =
      [DSDPub.lightSP, DSDPub.statusTP] ∧
    (IEQPro.ReadScopeStatus
       (IEQPro.ReadScopeStatus ieqTracking (some infoTracking) none
          (some (0, 0))).2.1
       (some infoTracking) none (some (0, 0))).2.2.2 ≠ [] := by
  refine ⟨by decide, by decide, by decide⟩

/-- C4 (amended): a client update of a timed-guide pair that leaves the
North (resp. West) member nonzero zeroes the opposite member, issues
exactly one pulse in that direction, sets the property state to the
guide callback result, and publishes the property exactly once; the
duration handed to the callback is values[0], the first value of the
client message, which is the North (resp. West) member request only
when that member is listed first. -/
theorem guider_pulse_first_value (st : GuiderState) (upd : List (String × Rat))
    (cbNS : DirNS → Rat → IPState) (cbWE : DirWE → Rat → IPState) :
    ((GuiderInterface.updateNS st upd).guideN ≠ 0 →
       GuiderInterface.ISNewNumber st "TELESCOPE_TIMED_GUIDE_NS" upd cbNS cbWE =
         (true,
          { GuiderInterface.updateNS st upd with guideS := 0, nsState := cbNS DirNS.DIRECTION_NORTH (GuiderInterface.firstValue upd) },
          [GuidePulse.ns DirNS.DIRECTION_NORTH (GuiderInterface.firstValue upd)],
          [GuiderPub.guideNSNP])) ∧
    ((GuiderInterface.updateWE st upd).guideW ≠ 0 →
       GuiderInterface.ISNewNumber st "TELESCOPE_TIMED_GUIDE_WE" upd cbNS cbWE =
         (true,
          { GuiderInterface.updateWE st upd with guideE := 0, weState := cbWE DirWE.DIRECTION_WEST (GuiderInterface.firstValue upd) },
          [GuidePulse.we DirWE.DIRECTION_WEST (GuiderInterface.firstValue upd)],
          [GuiderPub.guideWENP])) := by
  constructor
  · intro h
    simp only [GuiderInterface.ISNewNumber]
    rw [if_pos trivial, if_pos h]
  · intro h
    simp only [GuiderInterface.ISNewNumber]
    rw [if_neg (show "TELESCOPE_TIMED_GUIDE_WE" ≠ "TELESCOPE_TIMED_GUIDE_NS" by decide),
        if_pos trivial, if_pos h]

/-- Witness for C4: a single-member North update issues one North pulse
with the requested duration. -/
theorem guider_pulse_first_value_witness :
    (GuiderInterface.updateNS guiderInit
       [("TIMED_GUIDE_N", (500 : Rat))]).guideN ≠ 0 ∧
    (GuiderInterface.ISNewNumber guiderInit "TELESCOPE_TIMED_GUIDE_NS"
       [("TIMED_GUIDE_N", (500 : Rat))] (fun _ _ => IPState.IPS_OK)
       (fun _ _ => IPState.IPS_OK)).2.2.1 =
      [GuidePulse.ns DirNS.DIRECTION_NORTH 500] := by
  have h := (guider_pulse_first_value guiderInit
    [("TIMED_GUIDE_N", (500 : Rat))] (fun _ _ => IPState.IPS_OK)
    (fun _ _ => IPState.IPS_OK)).1 (by decide)
  refine ⟨by decide, by rw [h]; rfl⟩

/-- Counterexample for C4 as stated: when the client lists the South
member first (with value 0) and the North member second (500 ms), the
pulse is issued with duration values[0] = 0, not the North member
request of 500. -/
theorem guider_pulse_duration_mismatch :
    (GuiderInterface.ISNewNumber guiderInit "TELESCOPE_TIMED_GUIDE_NS"
       [("TIMED_GUIDE_S", (0 : Rat)), ("TIMED_GUIDE_N", (500 : Rat))]
       (fun _ _ => IPState.IPS_OK) (fun _ _ => IPState.IPS_OK)).2.2.1 =
      [GuidePulse.ns DirNS.DIRECTION_NORTH 0] ∧
    (0 : Rat) ≠ 500 := by
  refine ⟨by decide, by decide⟩

/-- C5 (amended): re-issuing the currently active selection of an
at-most-one switch group short-circuits with no device command and a
single publication; the resulting property state is OK in the
DeepSkyDadFP heater-mode handler but IDLE in the LX200FS2
stop-after-park handler. -/
theorem switch_reissue_short_circuits :
    (∀ (st : DSDState) (req : List (String × Bool)) (cmdOk : Bool),
       DeepSkyDadFP.modeIndex (DeepSkyDadFP.findOnHeater st) =
         DeepSkyDadFP.modeIndex (DeepSkyDadFP.findOnHeater
           (DeepSkyDadFP.updateHeaterSwitch st req)) →
       DeepSkyDadFP.ISNewSwitchHeaterMode st req cmdOk =
         (true,
          { DeepSkyDadFP.updateHeaterSwitch st req with heaterState := IPState.IPS_OK },
          [], [DSDPub.heaterModeSP])) ∧
    (∀ (st : FS2State) (req : List (String × Bool)) (a : String),
       LX200FS2.findOnSwitchName req = some a →
       LX200FS2.currentOnName st = some a →
       LX200FS2.ISNewSwitchStopAfterPark st req =
         (true, { st with stopAfterParkState := IPState.IPS_IDLE }, [],
          [FS2Pub.stopAfterParkSP])) := by
  constructor
  · intro st req cmdOk h
    simp only [DeepSkyDadFP.ISNewSwitchHeaterMode]
    rw [if_pos h]
  · intro st req a hreq hcur
    simp only [LX200FS2.ISNewSwitchStopAfterPark]
    rw [hreq, hcur]
    dsimp only
    rw [if_pos rfl]

/-- Witness for C5: re-selecting the already-on OFF heater mode on a
concrete state short-circuits to OK with no serial command. -/
theorem switch_reissue_short_circuits_witness :
    DeepSkyDadFP.modeIndex (DeepSkyDadFP.findOnHeater dsdSeen) =
      DeepSkyDadFP.modeIndex (DeepSkyDadFP.findOnHeater
        (DeepSkyDadFP.updateHeaterSwitch dsdSeen
          [("OFF", true), ("ON", false), ("ON2", false)])) ∧
    (DeepSkyDadFP.ISNewSwitchHeaterMode dsdSeen
       [("OFF", true), ("ON", false), ("ON2", false)] true).2.2.1 = [] ∧
    (DeepSkyDadFP.ISNewSwitchHeaterMode dsdSeen
       [("OFF", true), ("ON", false), ("ON2", false)] true).2.1.heaterState =
      IPState.IPS_OK := by
  have h := switch_reissue_short_circuits.1 dsdSeen
    [("OFF", true), ("ON", false), ("ON2", false)] true (by decide)
  refine ⟨by decide, by rw [h], by rw [h]⟩

/-- Counterexample for C5 as stated: re-issuing the active selection on
the LX200FS2 stop-after-park switch sets the property to IDLE, not OK. -/
theorem fs2_reissue_returns_idle :
    (LX200FS2.ISNewSwitchStopAfterPark fs2Init
       [("OFF", true), ("ON", false)]).2.1.stopAfterParkState =
      IPState.IPS_IDLE ∧
    (LX200FS2.ISNewSwitchStopAfterPark fs2Init
       [("OFF", true), ("ON", false)]).2.2.1 = [] ∧
    IPState.IPS_IDLE ≠ IPState.IPS_OK := by
  refine ⟨by decide, by decide, by decide⟩

/-- The connection-time startup sequence only ever raises the pier-side
capability (ORing in the probe result) and leaves the three boolean
capability flags untouched. -/
theorem getStartupData_flags (st : IEQState) (r : IEQPro.StartupResponses) :
    (IEQPro.getStartupData st r).1.hasPierSide =
      (st.hasPierSide || IEQPro.pierProbeValid r) ∧
    (IEQPro.getStartupData st r).1.canParkNatively = st.canParkNatively ∧
    (IEQPro.getStartupData st r).1.canFindHome = st.canFindHome ∧
    (IEQPro.getStartupData st r).1.canGuideRate = st.canGuideRate := by
  obtain ⟨fw, gr, utc, stt, cfgLon, cfgLat, ipk, ps⟩ := r
  unfold IEQPro.getStartupData IEQPro.pierProbeValid
  dsimp only
  repeat' split
  all_goals simp_all

/-- C9 (amended): the three boolean capability flags are assigned fresh
from the probe responses on every successful Handshake, independent of
their previous values, and no modeled post-handshake driver operation
modifies any capability flag; the pier-side capability bit however is
only OR-ed into the capability mask by getStartupData when the pier-side
probe succeeds and is never cleared, so it survives from a previous
session when the probe of the new session fails. -/
theorem ieqpro_capability_flags_policy :
    (∀ (st : IEQState) (canPark canHome canRate : Bool),
       IEQPro.Handshake st true canPark canHome canRate =
         (true,
          { st with canParkNatively := canPark, canFindHome := canHome,
                    canGuideRate := canRate },
          [IEQCmd.initCommunication, IEQCmd.isCommandSupported "MP1",
           IEQCmd.isCommandSupported "MSH", IEQCmd.isCommandSupported "RG"])) ∧
    (∀ (st : IEQState) (op : IEQPro.IEQOp),
       IEQPro.capFlags (IEQPro.applyOp st op) = IEQPro.capFlags st) ∧
    (∀ (st : IEQState) (r : IEQPro.StartupResponses),
       (IEQPro.getStartupData st r).1.hasPierSide =
         (st.hasPierSide || IEQPro.pierProbeValid r) ∧
       (IEQPro.getStartupData st r).1.canParkNatively = st.canParkNatively ∧
       (IEQPro.getStartupData st r).1.canFindHome = st.canFindHome ∧
       (IEQPro.getStartupData st r).1.canGuideRate = st.canGuideRate) := by
  refine ⟨?_, ?_, ?_⟩
  · intro st p f g
    simp [IEQPro.Handshake]
  · intro st op
    cases op with
    | readScope n p c => exact ReadScopeStatus_capFlags st n p c
    | gotoOp r d a b c polls => exact Goto_capFlags st r d a b c polls
    | syncOp ra de a b c =>
      unfold IEQPro.applyOp IEQPro.Sync
      dsimp only
      split_ifs <;> rfl
    | abortOp ok => rfl
    | parkOp h2e a b c x y z polls =>
      exact Park_capFlags st h2e a b c x y z polls
    | unparkOp ok =>
      unfold IEQPro.applyOp IEQPro.UnPark
      dsimp only
      split_ifs <;> rfl
    | moveNSOp dir c ok =>
      unfold IEQPro.applyOp IEQPro.MoveNS
      dsimp only
      split_ifs
      · rfl
      · cases c <;> rfl
    | moveWEOp dir c ok =>
      unfold IEQPro.applyOp IEQPro.MoveWE
      dsimp only
      split_ifs
      · rfl
      · cases c <;> rfl
    | guideOp d ms ok => cases d <;> rfl
    | slewRateOp i ok => rfl
    | trackModeOp r ok => rfl
    | trackRateOp ra de ok => rfl
    | trackEnabledOp en ok => cases en <;> rfl
    | currentParkOp e2h => rfl
    | defaultParkOp => rfl
  · intro st r
    exact getStartupData_flags st r

/-- Counterexample for C9 as stated: after a session whose pier-side
probe succeeded, a fresh handshake and connection setup whose pier-side
probe fails still shows the pier-side capability set — the flag is
carried over from the previous session instead of being derived fresh
from the probes of the new session. -/
theorem pier_side_capability_carried_over :
    (IEQPro.getStartupData
       ((IEQPro.Handshake
           (IEQPro.getStartupData
              ((IEQPro.Handshake ieqInit true true true true).2.1)
              startupWithPier).1
           true true true true).2.1)
       startupNoPier).1.hasPierSide = true ∧
    IEQPro.pierProbeValid startupNoPier = false := by
  refine ⟨by decide, rfl⟩

/-- C10 (confirmed): a heater-mode request that selects a mode different
from the current one and whose serial command fails is rolled back: the
handler returns false, the switch members are restored to exactly the
previously selected member, the property state is set to ALERT, and the
property is published exactly once. -/
theorem dsd_heater_rollback (st : DSDState) (i j : Fin 3)
    (req : List (String × Bool))
    (hvec : DeepSkyDadFP.heaterVec st = DeepSkyDadFP.exactlyOn i)
    (htgt : DeepSkyDadFP.findOnHeater (DeepSkyDadFP.updateHeaterSwitch st req) =
      some j)
    (hne : j ≠ i) :
    (DeepSkyDadFP.ISNewSwitchHeaterMode st req false).1 = false ∧
    DeepSkyDadFP.heaterVec
      (DeepSkyDadFP.ISNewSwitchHeaterMode st req false).2.1 =
      DeepSkyDadFP.heaterVec st ∧
    (DeepSkyDadFP.ISNewSwitchHeaterMode st req false).2.1.heaterState =
      IPState.IPS_ALERT ∧
    (DeepSkyDadFP.ISNewSwitchHeaterMode st req false).2.2.1 =
      ["[SHTM" ++ toString (DeepSkyDadFP.modeIndex (some j)) ++ "]"] ∧
    (DeepSkyDadFP.ISNewSwitchHeaterMode st req false).2.2.2 =
      [DSDPub.heaterModeSP] := by
  have hcur : DeepSkyDadFP.findOnHeater st = some i := by
    fin_cases i <;>
      (simp only [DeepSkyDadFP.heaterVec, DeepSkyDadFP.exactlyOn,
         Prod.mk.injEq] at hvec
       simp [DeepSkyDadFP.findOnHeater, hvec.1, hvec.2.1, hvec.2.2])
  have hne2 : DeepSkyDadFP.modeIndex (some i) ≠ DeepSkyDadFP.modeIndex (some j) := by
    simp only [DeepSkyDadFP.modeIndex, ne_eq, Nat.cast_inj]
    intro h
    exact hne (Fin.ext h).symm
  simp only [DeepSkyDadFP.heaterVec, DeepSkyDadFP.exactlyOn,
    Prod.mk.injEq] at hvec
  refine ⟨?_, ?_, ?_, ?_, ?_⟩ <;>
    (simp only [DeepSkyDadFP.ISNewSwitchHeaterMode, hcur, htgt]
     rw [if_neg hne2]
     fin_cases i <;> simp_all [DeepSkyDadFP.heaterVec])

/-- Witness for C10: requesting heater mode ON while OFF is selected with
a failing serial command rolls the selection back to OFF with ALERT. -/
theorem dsd_heater_rollback_witness :
    DeepSkyDadFP.heaterVec dsdSeen = DeepSkyDadFP.exactlyOn 0 ∧
    DeepSkyDadFP.findOnHeater (DeepSkyDadFP.updateHeaterSwitch dsdSeen
      [("OFF", false), ("ON", true), ("ON2", false)]) = some 1 ∧
    (DeepSkyDadFP.ISNewSwitchHeaterMode dsdSeen
       [("OFF", false), ("ON", true), ("ON2", false)] false).1 = false ∧
    DeepSkyDadFP.heaterVec (DeepSkyDadFP.ISNewSwitchHeaterMode dsdSeen
       [("OFF", false), ("ON", true), ("ON2", false)] false).2.1 =
      DeepSkyDadFP.heaterVec dsdSeen ∧
    (DeepSkyDadFP.ISNewSwitchHeaterMode dsdSeen
       [("OFF", false), ("ON", true), ("ON2", false)] false).2.1.heaterState =
      IPState.IPS_ALERT := by
  have h := dsd_heater_rollback dsdSeen 0 1
    [("OFF", false), ("ON", true), ("ON2", false)] (by decide) (by decide)
    (by decide)
  exact ⟨by decide, by decide, h.1, h.2.1, h.2.2.1⟩
